import Mathlib

/-!
Verification development for the scenic skia driver's script decoder and
interpreter (src/native/scenic_driver_skia/src/lib.rs and renderer.rs).

Modelling conventions of the shallow embedding:

* A Rust byte slice `&[u8]` is a `List Nat` of byte values.
* A Rust `String` produced by `String::from_utf8_lossy` is modelled by the raw
  byte list (`ByteStr`); only equality of identifiers matters to the engine,
  and the lossy UTF-8 decoding is an external `std` detail.
* An `f32` geometry field is carried as its raw 32-bit big-endian bit pattern
  (a `Nat`): the decoder only reconstructs bits (`f32::from_bits`) and the
  interpreter forwards the values to the external skia canvas, so no float
  arithmetic has to be interpreted.  Fixed-point quarter-unit fields
  (stroke width, font size) and the miter limit are represented exactly as
  rationals, since `u16 / 4.0` and `u16 as f32` are exact in `f32`.
* The skia canvas and its geometry conversions (`to_degrees`, `Rect`
  construction, font metrics) are external collaborators; the canvas is
  modelled as a trace of abstract calls carrying the operands the engine
  passes in, and a `Paint` value mirroring the `skia_safe::Paint` the engine
  builds.
* The three global resource caches are modelled as an explicit `Resources`
  environment of cached identifiers; `Image::to_shader` and the 2-color
  gradient constructors return non-null shaders for cached images, modelled
  by `some`.
-/

set_option maxHeartbeats 1600000

/-- Raw byte string: model of a Rust `String` identifier / text payload. -/
abbrev ByteStr := List Nat

/-- Model of `skia_safe::Color` (`Color::from_argb`). -/
structure Color where
  a : Nat
  r : Nat
  g : Nat
  b : Nat
deriving DecidableEq

/-- `Color::from_argb(a, r, g, b)`. -/
def Color.fromArgb (a r g b : Nat) : Color := ⟨a, r, g, b⟩

/-- `Color::WHITE`. -/
def Color.white : Color := ⟨255, 255, 255, 255⟩

/-- `Color::BLACK`. -/
def Color.black : Color := ⟨255, 0, 0, 0⟩

/-- `Color::TRANSPARENT`. -/
def Color.transparent : Color := ⟨0, 0, 0, 0⟩

/-- `skia_safe::PaintCap`. -/
inductive PaintCap
  | butt
  | round
  | square
deriving DecidableEq

/-- `skia_safe::PaintJoin`. -/
inductive PaintJoin
  | bevel
  | round
  | miter
deriving DecidableEq

/-- `skia_safe::PaintStyle`. -/
inductive PaintStyle
  | fill
  | stroke
deriving DecidableEq

/-- `skia_safe::ClipOp`. -/
inductive ClipOp
  | intersect
  | difference
deriving DecidableEq

/-- `renderer::TextAlign`. -/
inductive TextAlign
  | left
  | center
  | right
deriving DecidableEq

/-- `renderer::TextBase`. -/
inductive TextBase
  | top
  | middle
  | alphabetic
  | bottom
deriving DecidableEq

/-- `renderer::SpriteCommand`: all nine fields are raw `f32` bit patterns. -/
structure SpriteCommand where
  sx : Nat
  sy : Nat
  sw : Nat
  sh : Nat
  dx : Nat
  dy : Nat
  dw : Nat
  dh : Nat
  alpha : Nat
deriving DecidableEq

/-- Model of a `skia_safe::Shader` value, identified by the constructor call
that produced it (`Shader::linear_gradient`, `renderer::radial_shader`,
`Image::to_shader` on a static or stream cache entry). -/
inductive Shader
  | linear (startX startY endX endY : Nat) (startColor endColor : Color)
  | radial (centerX centerY outerRadius : Nat) (startColor endColor : Color)
  | conical (centerX centerY innerRadius outerRadius : Nat) (startColor endColor : Color)
  | image (id : ByteStr)
  | stream (id : ByteStr)
deriving DecidableEq

/-- `renderer::ScriptOp`.  Raw `f32` fields are bit patterns (`Nat`);
quarter-unit fixed point fields are exact rationals. -/
inductive ScriptOp
  | pushState
  | popState
  | popPushState
  | translate (x y : Nat)
  | rotate (radians : Nat)
  | scale (x y : Nat)
  | transform (a b c d e f : Nat)
  | fillColor (color : Color)
  | strokeColor (color : Color)
  | strokeWidth (width : ℚ)
  | fillLinear (startX startY endX endY : Nat) (startColor endColor : Color)
  | fillRadial (centerX centerY innerRadius outerRadius : Nat) (startColor endColor : Color)
  | strokeLinear (startX startY endX endY : Nat) (startColor endColor : Color)
  | strokeRadial (centerX centerY innerRadius outerRadius : Nat) (startColor endColor : Color)
  | fillImage (id : ByteStr)
  | fillStream (id : ByteStr)
  | strokeImage (id : ByteStr)
  | strokeStream (id : ByteStr)
  | strokeCap (cap : PaintCap)
  | strokeJoin (join : PaintJoin)
  | strokeMiterLimit (limit : ℚ)
  | clipPath (op : ClipOp)
  | scissor (width height : Nat)
  | beginPath
  | closePath
  | fillPath
  | strokePath
  | moveTo (x y : Nat)
  | lineTo (x y : Nat)
  | arcTo (x1 y1 x2 y2 radius : Nat)
  | bezierTo (cp1x cp1y cp2x cp2y x y : Nat)
  | quadraticTo (cpx cpy x y : Nat)
  | pathTriangle (x0 y0 x1 y1 x2 y2 : Nat)
  | pathQuad (x0 y0 x1 y1 x2 y2 x3 y3 : Nat)
  | pathRect (width height : Nat)
  | pathRRect (width height radius : Nat)
  | pathSector (radius radians : Nat)
  | pathCircle (radius : Nat)
  | pathEllipse (radius0 radius1 : Nat)
  | pathArc (cx cy radius start endAngle dir : Nat)
  | drawLine (x0 y0 x1 y1 : Nat) (flag : Nat)
  | drawTriangle (x0 y0 x1 y1 x2 y2 : Nat) (flag : Nat)
  | drawQuad (x0 y0 x1 y1 x2 y2 x3 y3 : Nat) (flag : Nat)
  | drawCircle (radius : Nat) (flag : Nat)
  | drawEllipse (radius0 radius1 : Nat) (flag : Nat)
  | drawArc (radius radians : Nat) (flag : Nat)
  | drawSector (radius radians : Nat) (flag : Nat)
  | drawRect (width height : Nat) (flag : Nat)
  | drawRRect (width height radius : Nat) (flag : Nat)
  | drawRRectV (width height ulRadius urRadius lrRadius llRadius : Nat) (flag : Nat)
  | drawSprites (imageId : ByteStr) (cmds : List SpriteCommand)
  | drawText (text : ByteStr)
  | font (id : ByteStr)
  | fontSize (size : ℚ)
  | textAlign (align : TextAlign)
  | textBase (base : TextBase)
  | drawScript (id : ByteStr)

/-- `u16::from_be_bytes` on the first two bytes of a slice. -/
def be16 (l : List Nat) : Nat :=
  l.getD 0 0 * 256 + l.getD 1 0

/-- `u32::from_be_bytes` on the first four bytes of a slice (also the raw bit
pattern handed to `f32::from_bits`). -/
def be32 (l : List Nat) : Nat :=
  ((l.getD 0 0 * 256 + l.getD 1 0) * 256 + l.getD 2 0) * 256 + l.getD 3 0

/-- `Color::from_argb(rgba[3], rgba[0], rgba[1], rgba[2])` on a 4-byte slice:
the wire order is red/green/blue/alpha, converted to alpha-first. -/
def colorAt (l : List Nat) : Color :=
  Color.fromArgb (l.getD 3 0) (l.getD 0 0) (l.getD 1 0) (l.getD 2 0)

/-- Lowercase hex digit. -/
def hexDigit (n : Nat) : Char :=
  if n < 10 then Char.ofNat (48 + n) else Char.ofNat (87 + n)

/-- Hex digits of `n`, most significant first (empty for 0). -/
def hexDigits : Nat → List Char
  | 0 => []
  | n + 1 => hexDigits ((n + 1) / 16) ++ [hexDigit ((n + 1) % 16)]
decreasing_by exact Nat.div_lt_self (Nat.succ_pos n) (by omega)

/-- Rust `format!("{n:02x}")`: lowercase hex, left-padded with zeros to at
least two digits. -/
def hexPad2 (n : Nat) : String :=
  let ds := hexDigits n
  String.mk (if ds.length < 2 then List.replicate (2 - ds.length) (Char.ofNat 48) ++ ds else ds)

/-- The `format!("unsupported opcode: 0x{opcode:02x}")` message of the default
match arm of `parse_script`. -/
def unsupportedMsg (opcode : Nat) : String :=
  "unsupported opcode: 0x" ++ hexPad2 opcode

/-- A `parse_script` match arm with a fixed-size payload: guard that at least
`n` payload bytes remain, build the operation from them, consume `n`. -/
def fixedOp (n : Nat) (msg : String) (build : List Nat → ScriptOp) (rest : List Nat) :
    Except String (ScriptOp × Nat) :=
  if rest.length < n then .error msg else .ok (build (rest.take n), n)

/-- A `parse_script` match arm with a 2-byte enumerant payload: guard, decode
the enumerant (which may reject it), consume 2. -/
def enumOp (msg : String) (decode : Nat → Except String ScriptOp) (rest : List Nat) :
    Except String (ScriptOp × Nat) :=
  if rest.length < 2 then .error msg
  else
    match decode (be16 rest) with
    | .ok op => .ok (op, 2)
    | .error e => .error e

/-- A `parse_script` match arm with a length-prefixed, zero-padded string
payload: a 2-byte length `len`, the raw bytes, then padding to a multiple of
four (`pad = (4 - len % 4) % 4`); consumes `2 + len + pad`. -/
def strOp (msg payloadMsg : String) (build : ByteStr → ScriptOp) (rest : List Nat) :
    Except String (ScriptOp × Nat) :=
  if rest.length < 2 then .error msg
  else if (rest.drop 2).length < be16 rest + (4 - be16 rest % 4) % 4 then .error payloadMsg
  else .ok (build ((rest.drop 2).take (be16 rest)), 2 + be16 rest + (4 - be16 rest % 4) % 4)

/-- The per-command reader loop of the `draw_sprites` (0x0B) arm: `count`
records of nine big-endian `f32` fields (36 bytes each). -/
def readSpriteCmds : Nat → List Nat → List SpriteCommand
  | 0, _ => []
  | c + 1, l =>
    { sx := be32 l
      sy := be32 (l.drop 4)
      sw := be32 (l.drop 8)
      sh := be32 (l.drop 12)
      dx := be32 (l.drop 16)
      dy := be32 (l.drop 20)
      dw := be32 (l.drop 24)
      dh := be32 (l.drop 28)
      alpha := be32 (l.drop 32) } :: readSpriteCmds c (l.drop 36)

/-- The `draw_sprites` (0x0B) match arm: length-prefixed image identifier,
4-byte command count, then `count * 36` bytes of command records.  (The
source's `count.checked_mul(9).and_then(|v| v.checked_mul(4))` cannot
overflow a 64-bit `usize` for a `u32` count, so the overflow error path is
unreachable and not modelled.) -/
def spritesOp (rest : List Nat) : Except String (ScriptOp × Nat) :=
  if rest.length < 6 then .error "draw_sprites opcode truncated"
  else if (rest.drop 6).length < be16 rest + (4 - be16 rest % 4) % 4 then
    .error "draw_sprites payload truncated"
  else if (rest.drop (6 + be16 rest + (4 - be16 rest % 4) % 4)).length <
      be32 (rest.drop 2) * 36 then
    .error "draw_sprites command data truncated"
  else
    .ok (.drawSprites ((rest.drop 6).take (be16 rest))
        (readSpriteCmds (be32 (rest.drop 2))
          ((rest.drop (6 + be16 rest + (4 - be16 rest % 4) % 4)).take
            (be32 (rest.drop 2) * 36))),
      6 + be16 rest + (4 - be16 rest % 4) % 4 + be32 (rest.drop 2) * 36)

/-- One iteration of the `parse_script` scan: given the 2-byte big-endian
opcode tag already read and the remaining bytes, either decode one operation
and report how many payload bytes it consumed, or fail with the source's
error message.  Mirrors the opcode match of `parse_script` in `lib.rs`. -/
def parseStep (opcode : Nat) (rest : List Nat) : Except String (ScriptOp × Nat) :=
  match opcode with
  | 0x44 =>
      fixedOp 10 "scissor opcode truncated"
        (fun r => .scissor (be32 (r.drop 2)) (be32 (r.drop 6))) rest
  | 0x45 =>
      enumOp "clip_path opcode truncated"
        (fun m =>
          if m = 0x00 then .ok (.clipPath .intersect)
          else if m = 0x01 then .ok (.clipPath .difference)
          else .error "clip_path opcode invalid") rest
  | 0x20 =>
      fixedOp 2 "begin_path opcode truncated" (fun _ => .beginPath) rest
  | 0x21 =>
      fixedOp 2 "close_path opcode truncated" (fun _ => .closePath) rest
  | 0x22 =>
      fixedOp 2 "fill_path opcode truncated" (fun _ => .fillPath) rest
  | 0x23 =>
      fixedOp 2 "stroke_path opcode truncated" (fun _ => .strokePath) rest
  | 0x26 =>
      fixedOp 10 "move_to opcode truncated"
        (fun r => .moveTo (be32 (r.drop 2)) (be32 (r.drop 6))) rest
  | 0x27 =>
      fixedOp 10 "line_to opcode truncated"
        (fun r => .lineTo (be32 (r.drop 2)) (be32 (r.drop 6))) rest
  | 0x28 =>
      fixedOp 22 "arc_to opcode truncated"
        (fun r => .arcTo (be32 (r.drop 2)) (be32 (r.drop 6)) (be32 (r.drop 10))
          (be32 (r.drop 14)) (be32 (r.drop 18))) rest
  | 0x29 =>
      fixedOp 26 "bezier_to opcode truncated"
        (fun r => .bezierTo (be32 (r.drop 2)) (be32 (r.drop 6)) (be32 (r.drop 10))
          (be32 (r.drop 14)) (be32 (r.drop 18)) (be32 (r.drop 22))) rest
  | 0x2A =>
      fixedOp 18 "quadratic_to opcode truncated"
        (fun r => .quadraticTo (be32 (r.drop 2)) (be32 (r.drop 6)) (be32 (r.drop 10))
          (be32 (r.drop 14))) rest
  | 0x2B =>
      fixedOp 26 "triangle opcode truncated"
        (fun r => .pathTriangle (be32 (r.drop 2)) (be32 (r.drop 6)) (be32 (r.drop 10))
          (be32 (r.drop 14)) (be32 (r.drop 18)) (be32 (r.drop 22))) rest
  | 0x2C =>
      fixedOp 34 "quad opcode truncated"
        (fun r => .pathQuad (be32 (r.drop 2)) (be32 (r.drop 6)) (be32 (r.drop 10))
          (be32 (r.drop 14)) (be32 (r.drop 18)) (be32 (r.drop 22)) (be32 (r.drop 26))
          (be32 (r.drop 30))) rest
  | 0x2D =>
      fixedOp 10 "rect opcode truncated"
        (fun r => .pathRect (be32 (r.drop 2)) (be32 (r.drop 6))) rest
  | 0x2E =>
      fixedOp 14 "rrect opcode truncated"
        (fun r => .pathRRect (be32 (r.drop 2)) (be32 (r.drop 6)) (be32 (r.drop 10))) rest
  | 0x2F =>
      fixedOp 10 "sector opcode truncated"
        (fun r => .pathSector (be32 (r.drop 2)) (be32 (r.drop 6))) rest
  | 0x30 =>
      fixedOp 6 "circle opcode truncated" (fun r => .pathCircle (be32 (r.drop 2))) rest
  | 0x31 =>
      fixedOp 10 "ellipse opcode truncated"
        (fun r => .pathEllipse (be32 (r.drop 2)) (be32 (r.drop 6))) rest
  | 0x32 =>
      fixedOp 26 "arc opcode truncated"
        (fun r => .pathArc (be32 (r.drop 2)) (be32 (r.drop 6)) (be32 (r.drop 10))
          (be32 (r.drop 14)) (be32 (r.drop 18)) (be32 (r.drop 22))) rest
  | 0x0f =>
      strOp "draw_script opcode truncated" "draw_script payload truncated" .drawScript rest
  | 0x40 =>
      fixedOp 2 "push_state opcode truncated" (fun _ => .pushState) rest
  | 0x41 =>
      fixedOp 2 "pop_state opcode truncated" (fun _ => .popState) rest
  | 0x42 =>
      fixedOp 2 "pop_push_state opcode truncated" (fun _ => .popPushState) rest
  | 0x60 =>
      fixedOp 6 "fill_color opcode truncated" (fun r => .fillColor (colorAt (r.drop 2))) rest
  | 0x61 =>
      fixedOp 26 "fill_linear opcode truncated"
        (fun r => .fillLinear (be32 (r.drop 2)) (be32 (r.drop 6)) (be32 (r.drop 10))
          (be32 (r.drop 14)) (colorAt (r.drop 18)) (colorAt (r.drop 22))) rest
  | 0x62 =>
      fixedOp 26 "fill_radial opcode truncated"
        (fun r => .fillRadial (be32 (r.drop 2)) (be32 (r.drop 6)) (be32 (r.drop 10))
          (be32 (r.drop 14)) (colorAt (r.drop 18)) (colorAt (r.drop 22))) rest
  | 0x63 =>
      strOp "fill_image opcode truncated" "fill_image payload truncated" .fillImage rest
  | 0x64 =>
      strOp "fill_stream opcode truncated" "fill_stream payload truncated" .fillStream rest
  | 0x50 =>
      fixedOp 26 "transform opcode truncated"
        (fun r => .transform (be32 (r.drop 2)) (be32 (r.drop 6)) (be32 (r.drop 10))
          (be32 (r.drop 14)) (be32 (r.drop 18)) (be32 (r.drop 22))) rest
  | 0x51 =>
      fixedOp 10 "scale opcode truncated"
        (fun r => .scale (be32 (r.drop 2)) (be32 (r.drop 6))) rest
  | 0x52 =>
      fixedOp 6 "rotate opcode truncated" (fun r => .rotate (be32 (r.drop 2))) rest
  | 0x53 =>
      fixedOp 10 "translate opcode truncated"
        (fun r => .translate (be32 (r.drop 2)) (be32 (r.drop 6))) rest
  | 0x01 =>
      fixedOp 18 "draw_line opcode truncated"
        (fun r => .drawLine (be32 (r.drop 2)) (be32 (r.drop 6)) (be32 (r.drop 10))
          (be32 (r.drop 14)) (be16 r)) rest
  | 0x02 =>
      fixedOp 26 "draw_triangle opcode truncated"
        (fun r => .drawTriangle (be32 (r.drop 2)) (be32 (r.drop 6)) (be32 (r.drop 10))
          (be32 (r.drop 14)) (be32 (r.drop 18)) (be32 (r.drop 22)) (be16 r)) rest
  | 0x03 =>
      fixedOp 34 "draw_quad opcode truncated"
        (fun r => .drawQuad (be32 (r.drop 2)) (be32 (r.drop 6)) (be32 (r.drop 10))
          (be32 (r.drop 14)) (be32 (r.drop 18)) (be32 (r.drop 22)) (be32 (r.drop 26))
          (be32 (r.drop 30)) (be16 r)) rest
  | 0x04 =>
      fixedOp 10 "draw_rect opcode truncated"
        (fun r => .drawRect (be32 (r.drop 2)) (be32 (r.drop 6)) (be16 r)) rest
  | 0x05 =>
      fixedOp 14 "draw_rrect opcode truncated"
        (fun r => .drawRRect (be32 (r.drop 2)) (be32 (r.drop 6)) (be32 (r.drop 10)) (be16 r)) rest
  | 0x0C =>
      fixedOp 26 "draw_rrectv opcode truncated"
        (fun r => .drawRRectV (be32 (r.drop 2)) (be32 (r.drop 6)) (be32 (r.drop 10))
          (be32 (r.drop 14)) (be32 (r.drop 18)) (be32 (r.drop 22)) (be16 r)) rest
  | 0x06 =>
      fixedOp 10 "draw_arc opcode truncated"
        (fun r => .drawArc (be32 (r.drop 2)) (be32 (r.drop 6)) (be16 r)) rest
  | 0x07 =>
      fixedOp 10 "draw_sector opcode truncated"
        (fun r => .drawSector (be32 (r.drop 2)) (be32 (r.drop 6)) (be16 r)) rest
  | 0x08 =>
      fixedOp 6 "draw_circle opcode truncated"
        (fun r => .drawCircle (be32 (r.drop 2)) (be16 r)) rest
  | 0x09 =>
      fixedOp 10 "draw_ellipse opcode truncated"
        (fun r => .drawEllipse (be32 (r.drop 2)) (be32 (r.drop 6)) (be16 r)) rest
  | 0x0B =>
      spritesOp rest
  | 0x0A =>
      strOp "draw_text opcode truncated" "draw_text payload truncated" .drawText rest
  | 0x70 =>
      fixedOp 2 "stroke_width opcode truncated"
        (fun r => .strokeWidth ((be16 r : ℚ) / 4)) rest
  | 0x71 =>
      fixedOp 6 "stroke_color opcode truncated" (fun r => .strokeColor (colorAt (r.drop 2))) rest
  | 0x72 =>
      fixedOp 26 "stroke_linear opcode truncated"
        (fun r => .strokeLinear (be32 (r.drop 2)) (be32 (r.drop 6)) (be32 (r.drop 10))
          (be32 (r.drop 14)) (colorAt (r.drop 18)) (colorAt (r.drop 22))) rest
  | 0x73 =>
      fixedOp 26 "stroke_radial opcode truncated"
        (fun r => .strokeRadial (be32 (r.drop 2)) (be32 (r.drop 6)) (be32 (r.drop 10))
          (be32 (r.drop 14)) (colorAt (r.drop 18)) (colorAt (r.drop 22))) rest
  | 0x74 =>
      strOp "stroke_image opcode truncated" "stroke_image payload truncated" .strokeImage rest
  | 0x75 =>
      strOp "stroke_stream opcode truncated" "stroke_stream payload truncated" .strokeStream rest
  | 0x80 =>
      enumOp "cap opcode truncated"
        (fun m =>
          if m = 0x00 then .ok (.strokeCap .butt)
          else if m = 0x01 then .ok (.strokeCap .round)
          else if m = 0x02 then .ok (.strokeCap .square)
          else .error "cap opcode invalid") rest
  | 0x81 =>
      enumOp "join opcode truncated"
        (fun m =>
          if m = 0x00 then .ok (.strokeJoin .bevel)
          else if m = 0x01 then .ok (.strokeJoin .round)
          else if m = 0x02 then .ok (.strokeJoin .miter)
          else .error "join opcode invalid") rest
  | 0x82 =>
      fixedOp 2 "miter_limit opcode truncated"
        (fun r => .strokeMiterLimit ((be16 r : ℚ))) rest
  | 0x90 =>
      strOp "font opcode truncated" "font payload truncated" .font rest
  | 0x91 =>
      fixedOp 2 "font_size opcode truncated"
        (fun r => .fontSize ((be16 r : ℚ) / 4)) rest
  | 0x92 =>
      enumOp "text_align opcode truncated"
        (fun m =>
          if m = 0x00 then .ok (.textAlign .left)
          else if m = 0x01 then .ok (.textAlign .center)
          else if m = 0x02 then .ok (.textAlign .right)
          else .error "unsupported text_align value") rest
  | 0x93 =>
      enumOp "text_base opcode truncated"
        (fun m =>
          if m = 0x00 then .ok (.textBase .top)
          else if m = 0x01 then .ok (.textBase .middle)
          else if m = 0x02 then .ok (.textBase .alphabetic)
          else if m = 0x03 then .ok (.textBase .bottom)
          else .error "unsupported text_base value") rest
  | _ => .error (unsupportedMsg opcode)

/-- The `while rest.len() >= 2` scan loop of `parse_script`: read the 2-byte
big-endian tag, decode one operation, continue on the unconsumed suffix.
A final leftover of fewer than 2 bytes ends the loop successfully. -/
def parseGo : List Nat → Except String (List ScriptOp)
  | b0 :: b1 :: rest =>
    match parseStep (b0 * 256 + b1) rest with
    | .error e => .error e
    | .ok (op, k) =>
      match parseGo (rest.drop k) with
      | .error e => .error e
      | .ok ops => .ok (op :: ops)
  | _ => .ok []
termination_by l => l.length
decreasing_by simp only [List.length_cons, List.length_drop]; omega

/-- `parse_script` from `lib.rs`. -/
def parse_script (script : List Nat) : Except String (List ScriptOp) :=
  parseGo script

/-- `renderer::RenderState`.  The `HashMap<String, Vec<ScriptOp>>` script
store is modelled as an association list with replace-on-insert. -/
structure RenderState where
  clear_color : Color
  scripts : List (ByteStr × List ScriptOp)
  root_id : Option ByteStr

/-- `RenderState::default()`: white clear color, empty store, no root. -/
def RenderState.default : RenderState :=
  { clear_color := Color.white, scripts := [], root_id := none }

/-- `HashMap::get` on the modelled script store. -/
def lookupScript : List (ByteStr × List ScriptOp) → ByteStr → Option (List ScriptOp)
  | [], _ => none
  | (k, v) :: rest, id => if k = id then some v else lookupScript rest id

/-- `HashMap::insert` on the modelled script store: replace the existing
binding for the key, or append a new one. -/
def insertScript : List (ByteStr × List ScriptOp) → ByteStr → List ScriptOp →
    List (ByteStr × List ScriptOp)
  | [], id, ops => [(id, ops)]
  | (k, v) :: rest, id, ops =>
    if k = id then (id, ops) :: rest else (k, v) :: insertScript rest id ops

/-- `ROOT_ID`, the reserved root script identifier (the bytes of the Rust
constant), as a raw byte string. -/
def ROOT_ID : ByteStr := [95, 114, 111, 111, 116, 95]

/-- `set_script` from `lib.rs`: install the ops under `id`; if `id` is the
reserved root identifier, (re)designate it as root. -/
def set_script (state : RenderState) (id : ByteStr) (ops : List ScriptOp) : RenderState :=
  { state with
    scripts := insertScript state.scripts id ops
    root_id := if id = ROOT_ID then some id else state.root_id }

/-- The staging loop of `submit_scripts`: decode every buffer in order,
aborting on the first decode error before anything is installed. -/
def stageScripts : List (ByteStr × List Nat) →
    Except String (List (ByteStr × List ScriptOp))
  | [] => .ok []
  | (id, script) :: rest =>
    match parse_script script with
    | .error e => .error e
    | .ok ops =>
      match stageScripts rest with
      | .error e => .error e
      | .ok staged => .ok ((id, ops) :: staged)

/-- `submit_scripts` from `lib.rs` (the closure run under the render-state
lock): decode all buffers into a staged list, then install every staged
pair; a decode error aborts before the install loop runs. -/
def submit_scripts (state : RenderState) (scripts : List (ByteStr × List Nat)) :
    Except String RenderState :=
  match stageScripts scripts with
  | .error e => .error e
  | .ok staged => .ok (staged.foldl (fun s p => set_script s p.1 p.2) state)

/-- The effect of a `submit_scripts` call on the shared render state: on a
decode error `update_render_state` propagates the error without running the
install loop, leaving the locked state untouched. -/
def submitScriptsApplied (state : RenderState) (scripts : List (ByteStr × List Nat)) :
    RenderState :=
  match submit_scripts state scripts with
  | .error _ => state
  | .ok state' => state'

/-- One recorded `skia_safe::PathBuilder` mutation.  Operand values are the
raw operand bit patterns the interpreter passes; the float geometry that
skia derives from them (degree conversion, bounding rects) is external. -/
inductive PathCmd
  | close
  | pathMoveTo (x y : Nat)
  | pathLineTo (x y : Nat)
  | arcToTangent (x1 y1 x2 y2 radius : Nat)
  | cubicTo (cp1x cp1y cp2x cp2y x y : Nat)
  | quadTo (cpx cpy x y : Nat)
  | polygon3 (x0 y0 x1 y1 x2 y2 : Nat)
  | polygon4 (x0 y0 x1 y1 x2 y2 x3 y3 : Nat)
  | addRect (width height : Nat)
  | addRRect (width height radius : Nat)
  | sectorArc (radius radians : Nat)
  | addCircle (radius : Nat)
  | addOval (radius0 radius1 : Nat)
  | addArc (cx cy radius start endAngle dir : Nat)
deriving DecidableEq

/-- Model of the `skia_safe::Paint` values the interpreter builds
(`Paint::default()` then the setters of `apply_fill_paint` /
`apply_stroke_paint`). -/
structure Paint where
  antiAlias : Bool
  style : PaintStyle
  color : Color
  shader : Option Shader
  strokeWidth : ℚ
  strokeCap : PaintCap
  strokeJoin : PaintJoin
  strokeMiter : ℚ
deriving DecidableEq

/-- `Paint::default()`: black, fill style, hairline width, butt cap, miter
join, miter limit 4, no shader, no anti-aliasing. -/
def Paint.default : Paint :=
  { antiAlias := false
    style := .fill
    color := Color.black
    shader := none
    strokeWidth := 0
    strokeCap := .butt
    strokeJoin := .miter
    strokeMiter := 4 }

/-- One call issued to the external `skia_safe::Canvas` during script
execution, recorded as a trace entry. -/
inductive CanvasCall
  | save
  | restore
  | translate (x y : Nat)
  | rotate (radians : Nat)
  | scale (x y : Nat)
  | concat (a b c d e f : Nat)
  | clipPath (path : List PathCmd) (op : ClipOp)
  | clipRect (width height : Nat)
  | drawPath (path : List PathCmd) (paint : Paint)
  | drawLine (x0 y0 x1 y1 : Nat) (paint : Paint)
  | drawCircle (radius : Nat) (paint : Paint)
  | drawOval (radius0 radius1 : Nat) (paint : Paint)
  | drawArc (radius radians : Nat) (paint : Paint)
  | drawRect (width height : Nat) (paint : Paint)
  | drawRRect (width height radius : Nat) (paint : Paint)
  | drawRRectV (width height ulRadius urRadius lrRadius llRadius : Nat) (paint : Paint)
  | drawImageRect (imageId : ByteStr) (cmd : SpriteCommand)
  | drawStr (text : ByteStr) (paint : Paint)
deriving DecidableEq

/-- `renderer::DrawStateSnapshot`. -/
structure DrawStateSnapshot where
  fill_color : Color
  fill_shader : Option Shader
  stroke_color : Color
  stroke_shader : Option Shader
  stroke_width : ℚ
  stroke_cap : PaintCap
  stroke_join : PaintJoin
  stroke_miter_limit : ℚ
  path : Option (List PathCmd)
  font_id : Option ByteStr
  font_size : ℚ
  text_align : TextAlign
  text_base : TextBase
deriving DecidableEq

/-- `DrawStateSnapshot::default()`. -/
def DrawStateSnapshot.default : DrawStateSnapshot :=
  { fill_color := Color.black
    fill_shader := none
    stroke_color := Color.black
    stroke_shader := none
    stroke_width := 1
    stroke_cap := .butt
    stroke_join := .miter
    stroke_miter_limit := 4
    path := none
    font_id := none
    font_size := 20
    text_align := .left
    text_base := .alphabetic }

/-- `renderer::DrawState`.  The snapshot `Vec` is modelled as a list with
its head as the top of the stack. -/
structure DrawState where
  fill_color : Color
  fill_shader : Option Shader
  stroke_color : Color
  stroke_shader : Option Shader
  stroke_width : ℚ
  stroke_cap : PaintCap
  stroke_join : PaintJoin
  stroke_miter_limit : ℚ
  path : Option (List PathCmd)
  font_id : Option ByteStr
  font_size : ℚ
  text_align : TextAlign
  text_base : TextBase
  stack : List DrawStateSnapshot
deriving DecidableEq

/-- `DrawState::default()`: black fill/stroke, unit stroke width, butt cap,
miter join, miter limit 4, no path, no font, size 20, left-aligned,
alphabetic baseline, empty snapshot stack. -/
def DrawState.default : DrawState :=
  { fill_color := Color.black
    fill_shader := none
    stroke_color := Color.black
    stroke_shader := none
    stroke_width := 1
    stroke_cap := .butt
    stroke_join := .miter
    stroke_miter_limit := 4
    path := none
    font_id := none
    font_size := 20
    text_align := .left
    text_base := .alphabetic
    stack := [] }

/-- The snapshot taken by `DrawState::push`. -/
def DrawState.snap (ds : DrawState) : DrawStateSnapshot :=
  { fill_color := ds.fill_color
    fill_shader := ds.fill_shader
    stroke_color := ds.stroke_color
    stroke_shader := ds.stroke_shader
    stroke_width := ds.stroke_width
    stroke_cap := ds.stroke_cap
    stroke_join := ds.stroke_join
    stroke_miter_limit := ds.stroke_miter_limit
    path := ds.path
    font_id := ds.font_id
    font_size := ds.font_size
    text_align := ds.text_align
    text_base := ds.text_base }

/-- `DrawState::push`. -/
def DrawState.push (ds : DrawState) : DrawState :=
  { ds with stack := ds.snap :: ds.stack }

/-- `DrawState::apply_snapshot`. -/
def DrawState.applySnapshot (ds : DrawState) (s : DrawStateSnapshot) : DrawState :=
  { ds with
    fill_color := s.fill_color
    fill_shader := s.fill_shader
    stroke_color := s.stroke_color
    stroke_shader := s.stroke_shader
    stroke_width := s.stroke_width
    stroke_cap := s.stroke_cap
    stroke_join := s.stroke_join
    stroke_miter_limit := s.stroke_miter_limit
    path := s.path
    font_id := s.font_id
    font_size := s.font_size
    text_align := s.text_align
    text_base := s.text_base }

/-- `DrawState::pop`: pop the snapshot stack (falling back to the default
snapshot when empty, as `unwrap_or_default` does) and apply it. -/
def DrawState.pop (ds : DrawState) : DrawState :=
  match ds.stack with
  | [] => ds.applySnapshot DrawStateSnapshot.default
  | s :: rest => { ds.applySnapshot s with stack := rest }

/-- `DrawState::pop_push`: pop, apply, and re-push the same snapshot. -/
def DrawState.pop_push (ds : DrawState) : DrawState :=
  match ds.stack with
  | [] => { ds.applySnapshot DrawStateSnapshot.default with
      stack := [DrawStateSnapshot.default] }
  | s :: rest => { ds.applySnapshot s with stack := s :: rest }

/-- `DrawState::can_pop`. -/
def DrawState.can_pop (ds : DrawState) : Bool :=
  !ds.stack.isEmpty

/-- `apply_fill_paint` from `renderer.rs`. -/
def apply_fill_paint (ds : DrawState) : Paint :=
  let paint := { Paint.default with antiAlias := true, style := PaintStyle.fill }
  match ds.fill_shader with
  | some shader => { paint with shader := some shader, color := Color.white }
  | none => { paint with color := ds.fill_color }

/-- `apply_stroke_paint` from `renderer.rs`. -/
def apply_stroke_paint (ds : DrawState) : Paint :=
  let paint :=
    { Paint.default with
      antiAlias := true
      style := PaintStyle.stroke
      strokeWidth := ds.stroke_width
      strokeCap := ds.stroke_cap
      strokeJoin := ds.stroke_join
      strokeMiter := ds.stroke_miter_limit }
  match ds.stroke_shader with
  | some shader => { paint with shader := some shader, color := Color.white }
  | none => { paint with color := ds.stroke_color }

/-- `set_fill_image_shader` from `renderer.rs`: a present shader becomes the
fill paint (with opaque white flat color); a missing resource degrades to no
shader and a fully transparent flat color. -/
def set_fill_image_shader (ds : DrawState) (shader : Option Shader) : DrawState :=
  match shader with
  | some shader => { ds with fill_shader := some shader, fill_color := Color.white }
  | none => { ds with fill_shader := none, fill_color := Color.transparent }

/-- `set_stroke_image_shader` from `renderer.rs`. -/
def set_stroke_image_shader (ds : DrawState) (shader : Option Shader) : DrawState :=
  match shader with
  | some shader => { ds with stroke_shader := some shader, stroke_color := Color.white }
  | none => { ds with stroke_shader := none, stroke_color := Color.transparent }

/-- The global resource caches (`IMAGE_CACHE`, `STREAM_CACHE`, `FONT_CACHE`)
and the availability of the built-in system typeface, modelled as an
explicit environment of cached identifiers. -/
structure Resources where
  images : List ByteStr
  streams : List ByteStr
  fonts : List ByteStr
  hasDefaultFont : Bool

/-- `load_static_shader`: `Image::to_shader` on a static cache hit. -/
def load_static_shader (res : Resources) (id : ByteStr) : Option Shader :=
  if id ∈ res.images then some (.image id) else none

/-- `load_stream_shader`: `Image::to_shader` on a stream cache hit. -/
def load_stream_shader (res : Resources) (id : ByteStr) : Option Shader :=
  if id ∈ res.streams then some (.stream id) else none

/-- The `f32` comparison `inner_radius <= 0.0` on a raw bit pattern: true
for +0, -0 and every negative non-NaN value. -/
def f32NonPos (bits : Nat) : Bool :=
  bits = 0 || (2 ^ 31 ≤ bits && bits ≤ 0xFF800000)

/-- `radial_shader` from `renderer.rs`: a plain radial gradient when the
inner radius is not positive, a two-point conical gradient otherwise. -/
def radial_shader (centerX centerY innerRadius outerRadius : Nat)
    (startColor endColor : Color) : Option Shader :=
  if f32NonPos innerRadius then
    some (.radial centerX centerY outerRadius startColor endColor)
  else
    some (.conical centerX centerY innerRadius outerRadius startColor endColor)

/-- Append one builder command to the in-progress path, creating the builder
first if needed (`draw_state.path.get_or_insert_with(PathBuilder::new)`). -/
def appendPath (ds : DrawState) (cmd : PathCmd) : DrawState :=
  { ds with path := some (ds.path.getD [] ++ [cmd]) }

/-- One step of the per-operation match of `draw_script` in `renderer.rs`,
for every operation except the recursive `DrawScript` arm (handled by
`draw_script` itself).  Takes and returns the pair of the mutable graphics
state and the canvas call trace. -/
def execOp (res : Resources) (acc : DrawState × List CanvasCall) (op : ScriptOp) :
    DrawState × List CanvasCall :=
  let ds := acc.1
  let calls := acc.2
  match op with
  | .pushState => (ds.push, calls ++ [.save])
  | .popState =>
    if ds.can_pop then (ds.pop, calls ++ [.restore]) else (ds, calls)
  | .popPushState =>
    if ds.can_pop then (ds.pop_push, calls ++ [.restore, .save]) else (ds, calls)
  | .translate x y => (ds, calls ++ [.translate x y])
  | .rotate radians => (ds, calls ++ [.rotate radians])
  | .scale x y => (ds, calls ++ [.scale x y])
  | .transform a b c d e f => (ds, calls ++ [.concat a b c d e f])
  | .fillColor color => ({ ds with fill_color := color, fill_shader := none }, calls)
  | .strokeColor color => ({ ds with stroke_color := color, stroke_shader := none }, calls)
  | .strokeWidth width => ({ ds with stroke_width := width }, calls)
  | .fillLinear sx sy ex ey c0 c1 =>
    ({ ds with fill_color := c0, fill_shader := some (.linear sx sy ex ey c0 c1) }, calls)
  | .fillRadial cx cy ir or c0 c1 =>
    ({ ds with fill_color := c0, fill_shader := radial_shader cx cy ir or c0 c1 }, calls)
  | .strokeLinear sx sy ex ey c0 c1 =>
    ({ ds with stroke_color := c0, stroke_shader := some (.linear sx sy ex ey c0 c1) }, calls)
  | .strokeRadial cx cy ir or c0 c1 =>
    ({ ds with stroke_color := c0, stroke_shader := radial_shader cx cy ir or c0 c1 }, calls)
  | .fillImage id => (set_fill_image_shader ds (load_static_shader res id), calls)
  | .fillStream id => (set_fill_image_shader ds (load_stream_shader res id), calls)
  | .strokeImage id => (set_stroke_image_shader ds (load_static_shader res id), calls)
  | .strokeStream id => (set_stroke_image_shader ds (load_stream_shader res id), calls)
  | .strokeCap cap => ({ ds with stroke_cap := cap }, calls)
  | .strokeJoin join => ({ ds with stroke_join := join }, calls)
  | .strokeMiterLimit limit => ({ ds with stroke_miter_limit := limit }, calls)
  | .clipPath clip_op =>
    match ds.path with
    | some path => (ds, calls ++ [.clipPath path clip_op])
    | none => (ds, calls)
  | .scissor width height => (ds, calls ++ [.clipRect width height])
  | .beginPath => ({ ds with path := some [] }, calls)
  | .closePath =>
    match ds.path with
    | some path => ({ ds with path := some (path ++ [.close]) }, calls)
    | none => (ds, calls)
  | .fillPath =>
    match ds.path with
    | some path => (ds, calls ++ [.drawPath path (apply_fill_paint ds)])
    | none => (ds, calls)
  | .strokePath =>
    match ds.path with
    | some path => ({ ds with path := none }, calls ++ [.drawPath path (apply_stroke_paint ds)])
    | none => (ds, calls)
  | .moveTo x y => (appendPath ds (.pathMoveTo x y), calls)
  | .lineTo x y => (appendPath ds (.pathLineTo x y), calls)
  | .arcTo x1 y1 x2 y2 radius =>
    let path := ds.path.getD []
    if path.isEmpty then ({ ds with path := some path }, calls)
    else ({ ds with path := some (path ++ [.arcToTangent x1 y1 x2 y2 radius]) }, calls)
  | .bezierTo cp1x cp1y cp2x cp2y x y =>
    (appendPath ds (.cubicTo cp1x cp1y cp2x cp2y x y), calls)
  | .quadraticTo cpx cpy x y => (appendPath ds (.quadTo cpx cpy x y), calls)
  | .pathTriangle x0 y0 x1 y1 x2 y2 =>
    (appendPath ds (.polygon3 x0 y0 x1 y1 x2 y2), calls)
  | .pathQuad x0 y0 x1 y1 x2 y2 x3 y3 =>
    (appendPath ds (.polygon4 x0 y0 x1 y1 x2 y2 x3 y3), calls)
  | .pathRect width height => (appendPath ds (.addRect width height), calls)
  | .pathRRect width height radius => (appendPath ds (.addRRect width height radius), calls)
  | .pathSector radius radians =>
    ({ ds with path := some (ds.path.getD [] ++
        [.pathMoveTo 0 0, .pathLineTo radius 0, .sectorArc radius radians, .close]) }, calls)
  | .pathCircle radius => (appendPath ds (.addCircle radius), calls)
  | .pathEllipse radius0 radius1 => (appendPath ds (.addOval radius0 radius1), calls)
  | .pathArc cx cy radius start endAngle dir =>
    (appendPath ds (.addArc cx cy radius start endAngle dir), calls)
  | .drawLine x0 y0 x1 y1 flag =>
    if flag &&& 0x02 = 0x02 then
      (ds, calls ++ [.drawLine x0 y0 x1 y1 (apply_stroke_paint ds)])
    else (ds, calls)
  | .drawTriangle x0 y0 x1 y1 x2 y2 flag =>
    let path : List PathCmd := [.pathMoveTo x0 y0, .pathLineTo x1 y1, .pathLineTo x2 y2, .close]
    (ds, calls ++
      (if flag &&& 0x01 = 0x01 then [.drawPath path (apply_fill_paint ds)] else []) ++
      (if flag &&& 0x02 = 0x02 then [.drawPath path (apply_stroke_paint ds)] else []))
  | .drawQuad x0 y0 x1 y1 x2 y2 x3 y3 flag =>
    let path : List PathCmd :=
      [.pathMoveTo x0 y0, .pathLineTo x1 y1, .pathLineTo x2 y2, .pathLineTo x3 y3, .close]
    (ds, calls ++
      (if flag &&& 0x01 = 0x01 then [.drawPath path (apply_fill_paint ds)] else []) ++
      (if flag &&& 0x02 = 0x02 then [.drawPath path (apply_stroke_paint ds)] else []))
  | .drawCircle radius flag =>
    (ds, calls ++
      (if flag &&& 0x01 = 0x01 then [.drawCircle radius (apply_fill_paint ds)] else []) ++
      (if flag &&& 0x02 = 0x02 then [.drawCircle radius (apply_stroke_paint ds)] else []))
  | .drawEllipse radius0 radius1 flag =>
    (ds, calls ++
      (if flag &&& 0x01 = 0x01 then [.drawOval radius0 radius1 (apply_fill_paint ds)] else []) ++
      (if flag &&& 0x02 = 0x02 then [.drawOval radius0 radius1 (apply_stroke_paint ds)] else []))
  | .drawArc radius radians flag =>
    (ds, calls ++
      (if flag &&& 0x01 = 0x01 then [.drawArc radius radians (apply_fill_paint ds)] else []) ++
      (if flag &&& 0x02 = 0x02 then [.drawArc radius radians (apply_stroke_paint ds)] else []))
  | .drawSector radius radians flag =>
    let path : List PathCmd :=
      [.pathMoveTo 0 0, .pathLineTo radius 0, .sectorArc radius radians, .close]
    (ds, calls ++
      (if flag &&& 0x01 = 0x01 then [.drawPath path (apply_fill_paint ds)] else []) ++
      (if flag &&& 0x02 = 0x02 then [.drawPath path (apply_stroke_paint ds)] else []))
  | .drawRect width height flag =>
    (ds, calls ++
      (if flag &&& 0x01 = 0x01 then [.drawRect width height (apply_fill_paint ds)] else []) ++
      (if flag &&& 0x02 = 0x02 then [.drawRect width height (apply_stroke_paint ds)] else []))
  | .drawRRect width height radius flag =>
    (ds, calls ++
      (if flag &&& 0x01 = 0x01 then [.drawRRect width height radius (apply_fill_paint ds)] else []) ++
      (if flag &&& 0x02 = 0x02 then [.drawRRect width height radius (apply_stroke_paint ds)] else []))
  | .drawRRectV width height ul ur lr ll flag =>
    (ds, calls ++
      (if flag &&& 0x01 = 0x01 then
        [.drawRRectV width height ul ur lr ll (apply_fill_paint ds)] else []) ++
      (if flag &&& 0x02 = 0x02 then
        [.drawRRectV width height ul ur lr ll (apply_stroke_paint ds)] else []))
  | .drawSprites image_id cmds =>
    if image_id ∈ res.images then
      (ds, calls ++ cmds.map (fun cmd => .drawImageRect image_id cmd))
    else (ds, calls)
  | .drawText text =>
    let fontOk : Bool :=
      match ds.font_id with
      | some font_id => decide (font_id ∈ res.fonts)
      | none => res.hasDefaultFont
    if fontOk && !text.isEmpty then
      (ds, calls ++ [.drawStr text (apply_fill_paint ds)])
    else (ds, calls)
  | .font font_id => ({ ds with font_id := some font_id }, calls)
  | .fontSize size => ({ ds with font_size := size }, calls)
  | .textAlign align => ({ ds with text_align := align }, calls)
  | .textBase base => ({ ds with text_base := base }, calls)
  | .drawScript _ => acc

/-- Number of script-store keys not yet on the currently-executing stack:
the measure that makes the cycle-guarded recursion of `draw_script`
well-founded. -/
def muMeasure (rs : RenderState) (stack_ids : List ByteStr) : Nat :=
  ((rs.scripts.map Prod.fst).filter (fun k => k ∉ stack_ids)).length

theorem lookupScript_mem {m : List (ByteStr × List ScriptOp)} {id : ByteStr}
    {ops : List ScriptOp} (h : lookupScript m id = some ops) : id ∈ m.map Prod.fst := by
  induction m with
  | nil => simp [lookupScript] at h
  | cons p rest ih =>
    obtain ⟨k, v⟩ := p
    by_cases hk : k = id
    · simp [hk]
    · simp only [lookupScript, if_neg hk] at h
      simp [ih h]

theorem length_filter_notMem_le (keys : List ByteStr) (id : ByteStr) (stack : List ByteStr) :
    (keys.filter (fun k => k ∉ id :: stack)).length ≤
      (keys.filter (fun k => k ∉ stack)).length := by
  induction keys with
  | nil => simp
  | cons k ks ih =>
    by_cases h1 : k ∉ id :: stack
    · have h2 : k ∉ stack := fun hk => h1 (List.mem_cons_of_mem _ hk)
      simp only [List.filter_cons]
      rw [if_pos (by simpa using h1), if_pos (by simpa using h2)]
      simpa using ih
    · by_cases h2 : k ∉ stack
      · simp only [List.filter_cons]
        rw [if_neg (by simpa using h1), if_pos (by simpa using h2)]
        simp only [List.length_cons]
        omega
      · simp only [List.filter_cons]
        rw [if_neg (by simpa using h1), if_neg (by simpa using h2)]
        exact ih

theorem length_filter_notMem_lt (keys : List ByteStr) (id : ByteStr) (stack : List ByteStr)
    (hmem : id ∈ keys) (hstk : id ∉ stack) :
    (keys.filter (fun k => k ∉ id :: stack)).length <
      (keys.filter (fun k => k ∉ stack)).length := by
  induction keys with
  | nil => simp at hmem
  | cons k ks ih =>
    rcases List.mem_cons.mp hmem with hk | hk
    · subst hk
      have h1 : ¬ (id ∉ id :: stack) := by simp
      simp only [List.filter_cons]
      rw [if_neg (by simp), if_pos (by simpa using hstk)]
      simp only [List.length_cons]
      have := length_filter_notMem_le ks id stack
      omega
    · by_cases h1 : k ∉ id :: stack
      · have h2 : k ∉ stack := fun hx => h1 (List.mem_cons_of_mem _ hx)
        simp only [List.filter_cons]
        rw [if_pos (by simpa using h1), if_pos (by simpa using h2)]
        simp only [List.length_cons]
        have := ih hk
        omega
      · by_cases h2 : k ∉ stack
        · simp only [List.filter_cons]
          rw [if_neg (by simpa using h1), if_pos (by simpa using h2)]
          simp only [List.length_cons]
          have := ih hk
          omega
        · simp only [List.filter_cons]
          rw [if_neg (by simpa using h1), if_neg (by simpa using h2)]
          exact ih hk

theorem muMeasure_lt {rs : RenderState} {id : ByteStr} {stack : List ByteStr}
    (hmem : id ∈ rs.scripts.map Prod.fst) (hstk : id ∉ stack) :
    muMeasure rs (id :: stack) < muMeasure rs stack :=
  length_filter_notMem_lt (rs.scripts.map Prod.fst) id stack hmem hstk

mutual

/-- `draw_script` from `renderer.rs`: skip identifiers already on the
currently-executing stack (cycle guard), skip identifiers missing from the
script store, otherwise push the identifier and execute the script's
operations against the same graphics state and canvas.  (The source pushes
onto a mutable `Vec` and pops after the loop; passing the extended stack to
the loop is the same call-scoped discipline.) -/
def draw_script (res : Resources) (rs : RenderState) (script_id : ByteStr)
    (acc : DrawState × List CanvasCall) (stack_ids : List ByteStr) :
    DrawState × List CanvasCall :=
  if hmem : script_id ∈ stack_ids then acc
  else
    match hlook : lookupScript rs.scripts script_id with
    | none => acc
    | some ops => execOps res rs ops acc (script_id :: stack_ids)
termination_by (muMeasure rs stack_ids, 0)
decreasing_by
  exact Prod.Lex.left _ _ (muMeasure_lt (lookupScript_mem hlook) hmem)

/-- The `for op in ops` loop of `draw_script`: fold every operation over the
graphics state and canvas trace, recursing through `draw_script` on
`DrawScript` references. -/
def execOps (res : Resources) (rs : RenderState) (ops : List ScriptOp)
    (acc : DrawState × List CanvasCall) (stack_ids : List ByteStr) :
    DrawState × List CanvasCall :=
  match ops with
  | [] => acc
  | op :: rest =>
    match op with
    | .drawScript id => execOps res rs rest (draw_script res rs id acc stack_ids) stack_ids
    | _ => execOps res rs rest (execOp res acc op) stack_ids
termination_by (muMeasure rs stack_ids, ops.length + 1)
decreasing_by
  · exact Prod.Lex.right _ (by omega)
  · exact Prod.Lex.right _ (by simp only [List.length_cons]; omega)
  · exact Prod.Lex.right _ (by simp only [List.length_cons]; omega)

end

theorem be16_append (l t : List Nat) (h : 2 ≤ l.length) :
    be16 (l ++ t) = be16 l := by
  unfold be16
  rw [List.getD_append _ _ _ _ (by omega), List.getD_append _ _ _ _ (by omega)]

theorem be32_append (l t : List Nat) (h : 4 ≤ l.length) :
    be32 (l ++ t) = be32 l := by
  unfold be32
  rw [List.getD_append _ _ _ _ (by omega), List.getD_append _ _ _ _ (by omega),
    List.getD_append _ _ _ _ (by omega), List.getD_append _ _ _ _ (by omega)]

/-- A fixed-payload match arm that succeeds consumed an even number of bytes
within the buffer, and decodes identically however the buffer is extended. -/
theorem fixedOp_ok {n : Nat} {msg : String} {build : List Nat → ScriptOp} {rest : List Nat}
    {op : ScriptOp} {k : Nat} (t : List Nat) (hn : n % 2 = 0)
    (h : fixedOp n msg build rest = .ok (op, k)) :
    k ≤ rest.length ∧ k % 2 = 0 ∧ fixedOp n msg build (rest ++ t) = .ok (op, k) := by
  unfold fixedOp at h ⊢
  split at h
  · exact Except.noConfusion h
  · rename_i hlen
    push_neg at hlen
    simp only [Except.ok.injEq, Prod.mk.injEq] at h
    obtain ⟨hop, hk⟩ := h
    subst hop
    subst hk
    refine ⟨hlen, hn, ?_⟩
    rw [if_neg (by simp only [List.length_append]; omega),
      List.take_append_of_le_length hlen]

/-- Same for a 2-byte enumerant match arm. -/
theorem enumOp_ok {msg : String} {decode : Nat → Except String ScriptOp} {rest : List Nat}
    {op : ScriptOp} {k : Nat} (t : List Nat)
    (h : enumOp msg decode rest = .ok (op, k)) :
    k ≤ rest.length ∧ k % 2 = 0 ∧ enumOp msg decode (rest ++ t) = .ok (op, k) := by
  unfold enumOp at h ⊢
  split at h
  · exact Except.noConfusion h
  · rename_i hlen
    push_neg at hlen
    split at h
    · rename_i op' hdec
      simp only [Except.ok.injEq, Prod.mk.injEq] at h
      obtain ⟨hop, hk⟩ := h
      subst hop
      subst hk
      refine ⟨hlen, by omega, ?_⟩
      rw [if_neg (by simp only [List.length_append]; omega), be16_append _ t hlen, hdec]
    · exact Except.noConfusion h

/-- Same for a length-prefixed string match arm. -/
theorem strOp_ok {msg pmsg : String} {build : ByteStr → ScriptOp} {rest : List Nat}
    {op : ScriptOp} {k : Nat} (t : List Nat)
    (h : strOp msg pmsg build rest = .ok (op, k)) :
    k ≤ rest.length ∧ k % 2 = 0 ∧ strOp msg pmsg build (rest ++ t) = .ok (op, k) := by
  unfold strOp at h ⊢
  split at h
  · exact Except.noConfusion h
  · rename_i hlen
    push_neg at hlen
    split at h
    · exact Except.noConfusion h
    · rename_i hpl
      push_neg at hpl
      rw [List.length_drop] at hpl
      simp only [Except.ok.injEq, Prod.mk.injEq] at h
      obtain ⟨hop, hk⟩ := h
      subst hop
      subst hk
      refine ⟨by omega, by omega, ?_⟩
      rw [if_neg (by simp only [List.length_append]; omega), be16_append _ t hlen,
        List.drop_append_of_le_length hlen]
      rw [if_neg (by simp only [List.length_append, List.length_drop]; omega)]
      rw [List.take_append_of_le_length (by simp only [List.length_drop]; omega)]

/-- Same for the sprite-batch match arm. -/
theorem spritesOp_ok {rest : List Nat} {op : ScriptOp} {k : Nat} (t : List Nat)
    (h : spritesOp rest = .ok (op, k)) :
    k ≤ rest.length ∧ k % 2 = 0 ∧ spritesOp (rest ++ t) = .ok (op, k) := by
  unfold spritesOp at h ⊢
  split at h
  · exact Except.noConfusion h
  · rename_i hlen
    push_neg at hlen
    split at h
    · exact Except.noConfusion h
    · rename_i hpl
      push_neg at hpl
      rw [List.length_drop] at hpl
      split at h
      · exact Except.noConfusion h
      · rename_i hcmd
        push_neg at hcmd
        rw [List.length_drop] at hcmd
        simp only [Except.ok.injEq, Prod.mk.injEq] at h
        obtain ⟨hop, hk⟩ := h
        subst hop
        subst hk
        refine ⟨by omega, by omega, ?_⟩
        rw [if_neg (by simp only [List.length_append]; omega), be16_append _ t (by omega),
          List.drop_append_of_le_length (show (2:Nat) ≤ rest.length by omega),
          be32_append (rest.drop 2) t (by simp only [List.length_drop]; omega),
          List.drop_append_of_le_length (show (6:Nat) ≤ rest.length by omega)]
        rw [if_neg (by simp only [List.length_append, List.length_drop]; omega)]
        rw [List.drop_append_of_le_length
          (show 6 + be16 rest + (4 - be16 rest % 4) % 4 ≤ rest.length by omega)]
        rw [if_neg (by simp only [List.length_append, List.length_drop]; omega)]
        rw [List.take_append_of_le_length (by simp only [List.length_drop]; omega),
          List.take_append_of_le_length (by simp only [List.length_drop]; omega)]

/-- A successful `parseStep` consumed an even number of bytes that all lie
within the buffer, and decodes the same operation when the buffer is
extended on the right. -/
theorem parseStep_ok {opc : Nat} {rest : List Nat} {op : ScriptOp} {k : Nat} (t : List Nat)
    (h : parseStep opc rest = .ok (op, k)) :
    k ≤ rest.length ∧ k % 2 = 0 ∧ parseStep opc (rest ++ t) = .ok (op, k) := by
  unfold parseStep at h ⊢
  split at h <;>
    first
      | exact fixedOp_ok t (by decide) h
      | exact enumOp_ok t h
      | exact strOp_ok t h
      | exact spritesOp_ok t h
      | exact Except.noConfusion h

/-- The scan loop ends successfully on a leftover of fewer than two bytes
(in particular a single trailing byte is silently discarded). -/
theorem parseGo_short (l : List Nat) (h : l.length < 2) : parseGo l = .ok [] := by
  match l with
  | [] => simp [parseGo]
  | [b] => simp [parseGo]
  | b0 :: b1 :: rest => simp only [List.length_cons] at h; omega

/-- Unfolding equation of the scan loop on a buffer with a full 2-byte tag. -/
theorem parseGo_cons (b0 b1 : Nat) (rest : List Nat) :
    parseGo (b0 :: b1 :: rest) =
      match parseStep (b0 * 256 + b1) rest with
      | .error e => .error e
      | .ok (op, k) =>
        match parseGo (rest.drop k) with
        | .error e => .error e
        | .ok ops => .ok (op :: ops) := by
  rw [parseGo]

theorem parseGo_append_aux (n : Nat) :
    ∀ pre : List Nat, pre.length ≤ n → ∀ (t : List Nat) (ops : List ScriptOp),
      parseGo pre = .ok ops → pre.length % 2 = 0 →
      parseGo (pre ++ t) = (parseGo t).map (fun l => ops ++ l) := by
  induction n with
  | zero =>
    intro pre hlen t ops hok hpar
    have hnil : pre = [] := List.length_eq_zero.mp (by omega)
    subst hnil
    simp only [parseGo] at hok
    simp only [Except.ok.injEq] at hok
    subst hok
    simp only [List.nil_append]
    cases parseGo t <;> simp [Except.map]
  | succ n ih =>
    intro pre hlen t ops hok hpar
    match pre with
    | [] =>
      simp only [parseGo] at hok
      simp only [Except.ok.injEq] at hok
      subst hok
      simp only [List.nil_append]
      cases parseGo t <;> simp [Except.map]
    | [b] => simp at hpar
    | b0 :: b1 :: rest =>
      rw [parseGo_cons] at hok
      cases hs : parseStep (b0 * 256 + b1) rest with
      | error e => simp only [hs] at hok; exact Except.noConfusion hok
      | ok pk =>
        obtain ⟨op, k⟩ := pk
        simp only [hs] at hok
        cases hr : parseGo (rest.drop k) with
        | error e => simp only [hr] at hok; exact Except.noConfusion hok
        | ok ops' =>
          simp only [hr, Except.ok.injEq] at hok
          subst hok
          obtain ⟨hk_le, hk_par, hs'⟩ := parseStep_ok t hs
          have hcons : (b0 :: b1 :: rest) ++ t = b0 :: b1 :: (rest ++ t) := rfl
          rw [hcons, parseGo_cons]
          simp only [hs', List.drop_append_of_le_length hk_le]
          simp only [List.length_cons] at hlen hpar
          have ihx := ih (rest.drop k) (by simp only [List.length_drop]; omega) t ops' hr
            (by simp only [List.length_drop]; omega)
          rw [ihx]
          cases parseGo t <;> simp [Except.map]

/-- A fully scanned well-formed prefix composes: parsing `pre ++ t` decodes
`pre`'s operations and continues into `t`.  (`pre.length` even says the scan
consumed all of `pre`: every match arm consumes an even number of bytes.) -/
theorem parseGo_append {pre t : List Nat} {ops : List ScriptOp}
    (hok : parseGo pre = .ok ops) (hpar : pre.length % 2 = 0) :
    parseGo (pre ++ t) = (parseGo t).map (fun l => ops ++ l) :=
  parseGo_append_aux pre.length pre le_rfl t ops hok hpar

/-- The 2-byte tags recognized by the `parse_script` opcode match, in source
order. -/
def supportedOpcodes : List Nat :=
  [0x44, 0x45, 0x20, 0x21, 0x22, 0x23, 0x26, 0x27, 0x28, 0x29, 0x2A, 0x2B, 0x2C,
   0x2D, 0x2E, 0x2F, 0x30, 0x31, 0x32, 0x0f, 0x40, 0x41, 0x42, 0x60, 0x61, 0x62,
   0x63, 0x64, 0x50, 0x51, 0x52, 0x53, 0x01, 0x02, 0x03, 0x04, 0x05, 0x0C, 0x06,
   0x07, 0x08, 0x09, 0x0B, 0x0A, 0x70, 0x71, 0x72, 0x73, 0x74, 0x75, 0x80, 0x81,
   0x82, 0x90, 0x91, 0x92, 0x93]

theorem parseStep_unsupported {opc : Nat} (rest : List Nat) (h : opc ∉ supportedOpcodes) :
    parseStep opc rest = .error (unsupportedMsg opc) := by
  unfold parseStep
  split
  all_goals first
    | rfl
    | (exfalso; exact h (by decide))

/-- The number of payload bytes each recognized opcode requires before its
first (header) guard passes: the full fixed payload for fixed-size arms, the
2-byte length prefix for string arms, and the 6-byte length-and-count header
for the sprite-batch arm.  Tabulates the `rest.len() < n` guards of
`parse_script`. -/
def headerLen (opcode : Nat) : Nat :=
  match opcode with
  | 0x44 => 10 | 0x45 => 2  | 0x20 => 2  | 0x21 => 2  | 0x22 => 2  | 0x23 => 2
  | 0x26 => 10 | 0x27 => 10 | 0x28 => 22 | 0x29 => 26 | 0x2A => 18 | 0x2B => 26
  | 0x2C => 34 | 0x2D => 10 | 0x2E => 14 | 0x2F => 10 | 0x30 => 6  | 0x31 => 10
  | 0x32 => 26 | 0x0f => 2  | 0x40 => 2  | 0x41 => 2  | 0x42 => 2  | 0x60 => 6
  | 0x61 => 26 | 0x62 => 26 | 0x63 => 2  | 0x64 => 2  | 0x50 => 26 | 0x51 => 10
  | 0x52 => 6  | 0x53 => 10 | 0x01 => 18 | 0x02 => 26 | 0x03 => 34 | 0x04 => 10
  | 0x05 => 14 | 0x0C => 26 | 0x06 => 10 | 0x07 => 10 | 0x08 => 6  | 0x09 => 10
  | 0x0B => 6  | 0x0A => 2  | 0x70 => 2  | 0x71 => 6  | 0x72 => 26 | 0x73 => 26
  | 0x74 => 2  | 0x75 => 2  | 0x80 => 2  | 0x81 => 2  | 0x82 => 2  | 0x90 => 2
  | 0x91 => 2  | 0x92 => 2  | 0x93 => 2  | _ => 0

/-- The "<name> opcode truncated" message each recognized opcode's header
guard produces, tabulated from `parse_script`. -/
def headerTruncMsg (opcode : Nat) : String :=
  match opcode with
  | 0x44 => "scissor opcode truncated"
  | 0x45 => "clip_path opcode truncated"
  | 0x20 => "begin_path opcode truncated"
  | 0x21 => "close_path opcode truncated"
  | 0x22 => "fill_path opcode truncated"
  | 0x23 => "stroke_path opcode truncated"
  | 0x26 => "move_to opcode truncated"
  | 0x27 => "line_to opcode truncated"
  | 0x28 => "arc_to opcode truncated"
  | 0x29 => "bezier_to opcode truncated"
  | 0x2A => "quadratic_to opcode truncated"
  | 0x2B => "triangle opcode truncated"
  | 0x2C => "quad opcode truncated"
  | 0x2D => "rect opcode truncated"
  | 0x2E => "rrect opcode truncated"
  | 0x2F => "sector opcode truncated"
  | 0x30 => "circle opcode truncated"
  | 0x31 => "ellipse opcode truncated"
  | 0x32 => "arc opcode truncated"
  | 0x0f => "draw_script opcode truncated"
  | 0x40 => "push_state opcode truncated"
  | 0x41 => "pop_state opcode truncated"
  | 0x42 => "pop_push_state opcode truncated"
  | 0x60 => "fill_color opcode truncated"
  | 0x61 => "fill_linear opcode truncated"
  | 0x62 => "fill_radial opcode truncated"
  | 0x63 => "fill_image opcode truncated"
  | 0x64 => "fill_stream opcode truncated"
  | 0x50 => "transform opcode truncated"
  | 0x51 => "scale opcode truncated"
  | 0x52 => "rotate opcode truncated"
  | 0x53 => "translate opcode truncated"
  | 0x01 => "draw_line opcode truncated"
  | 0x02 => "draw_triangle opcode truncated"
  | 0x03 => "draw_quad opcode truncated"
  | 0x04 => "draw_rect opcode truncated"
  | 0x05 => "draw_rrect opcode truncated"
  | 0x0C => "draw_rrectv opcode truncated"
  | 0x06 => "draw_arc opcode truncated"
  | 0x07 => "draw_sector opcode truncated"
  | 0x08 => "draw_circle opcode truncated"
  | 0x09 => "draw_ellipse opcode truncated"
  | 0x0B => "draw_sprites opcode truncated"
  | 0x0A => "draw_text opcode truncated"
  | 0x70 => "stroke_width opcode truncated"
  | 0x71 => "stroke_color opcode truncated"
  | 0x72 => "stroke_linear opcode truncated"
  | 0x73 => "stroke_radial opcode truncated"
  | 0x74 => "stroke_image opcode truncated"
  | 0x75 => "stroke_stream opcode truncated"
  | 0x80 => "cap opcode truncated"
  | 0x81 => "join opcode truncated"
  | 0x82 => "miter_limit opcode truncated"
  | 0x90 => "font opcode truncated"
  | 0x91 => "font_size opcode truncated"
  | 0x92 => "text_align opcode truncated"
  | 0x93 => "text_base opcode truncated"
  | _ => ""

theorem fixedOp_truncated {n : Nat} {msg : String} {build : List Nat → ScriptOp}
    {rest : List Nat} (h : rest.length < n) :
    fixedOp n msg build rest = .error msg := by
  unfold fixedOp
  rw [if_pos h]

theorem enumOp_truncated {msg : String} {decode : Nat → Except String ScriptOp}
    {rest : List Nat} (h : rest.length < 2) :
    enumOp msg decode rest = .error msg := by
  unfold enumOp
  rw [if_pos h]

theorem strOp_truncated {msg pmsg : String} {build : ByteStr → ScriptOp}
    {rest : List Nat} (h : rest.length < 2) :
    strOp msg pmsg build rest = .error msg := by
  unfold strOp
  rw [if_pos h]

theorem spritesOp_truncated {rest : List Nat} (h : rest.length < 6) :
    spritesOp rest = .error "draw_sprites opcode truncated" := by
  unfold spritesOp
  rw [if_pos h]

/-- Every recognized opcode whose header guard fails produces its own
"truncated" error. -/
theorem parseStep_header_truncated :
    ∀ opc ∈ supportedOpcodes, ∀ rest : List Nat, rest.length < headerLen opc →
      parseStep opc rest = .error (headerTruncMsg opc) := by
  intro opc hmem rest hlen
  fin_cases hmem <;>
    (simp only [headerLen] at hlen
     simp only [parseStep, headerTruncMsg]
     first
       | exact fixedOp_truncated hlen
       | exact enumOp_truncated hlen
       | exact strOp_truncated hlen
       | exact spritesOp_truncated hlen)

/-- The seven opcodes whose payload is a length-prefixed, zero-padded
string/identifier: draw_script, fill_image, fill_stream, draw_text,
stroke_image, stroke_stream, font. -/
def strOpcodes : List Nat := [0x0f, 0x63, 0x64, 0x0A, 0x74, 0x75, 0x90]

/-- Which operation each string-payload opcode builds. -/
def strBuild (opcode : Nat) : ByteStr → ScriptOp :=
  match opcode with
  | 0x0f => .drawScript
  | 0x63 => .fillImage
  | 0x64 => .fillStream
  | 0x0A => .drawText
  | 0x74 => .strokeImage
  | 0x75 => .strokeStream
  | _ => .font

/-- The "<name> payload truncated" message of each string-payload opcode. -/
def strPayloadMsg (opcode : Nat) : String :=
  match opcode with
  | 0x0f => "draw_script payload truncated"
  | 0x63 => "fill_image payload truncated"
  | 0x64 => "fill_stream payload truncated"
  | 0x0A => "draw_text payload truncated"
  | 0x74 => "stroke_image payload truncated"
  | 0x75 => "stroke_stream payload truncated"
  | _ => "font payload truncated"

theorem be16_cons (a b : Nat) (l : List Nat) : be16 (a :: b :: l) = a * 256 + b := rfl

theorem strOp_trunc_payload {msg pmsg : String} {build : ByteStr → ScriptOp}
    (l0 l1 : Nat) (body : List Nat)
    (h : body.length < (l0 * 256 + l1) + (4 - (l0 * 256 + l1) % 4) % 4) :
    strOp msg pmsg build (l0 :: l1 :: body) = .error pmsg := by
  unfold strOp
  rw [if_neg (by simp only [List.length_cons]; omega)]
  rw [show (l0 :: l1 :: body).drop 2 = body from rfl, be16_cons]
  rw [if_pos h]

theorem strOp_consumes {msg pmsg : String} {build : ByteStr → ScriptOp}
    (l0 l1 : Nat) (body : List Nat)
    (h : (l0 * 256 + l1) + (4 - (l0 * 256 + l1) % 4) % 4 ≤ body.length) :
    strOp msg pmsg build (l0 :: l1 :: body) =
      .ok (build (body.take (l0 * 256 + l1)),
        2 + (l0 * 256 + l1) + (4 - (l0 * 256 + l1) % 4) % 4) := by
  unfold strOp
  rw [if_neg (by simp only [List.length_cons]; omega)]
  rw [show (l0 :: l1 :: body).drop 2 = body from rfl, be16_cons]
  rw [if_neg (by omega)]

/-- Payload truncation of each string-payload opcode yields its "payload
truncated" error. -/
theorem parseStep_string_truncated :
    ∀ opc ∈ strOpcodes, ∀ (l0 l1 : Nat) (body : List Nat),
      body.length < (l0 * 256 + l1) + (4 - (l0 * 256 + l1) % 4) % 4 →
      parseStep opc (l0 :: l1 :: body) = .error (strPayloadMsg opc) := by
  intro opc hmem l0 l1 body h
  fin_cases hmem <;>
    (simp only [parseStep, strPayloadMsg]
     exact strOp_trunc_payload l0 l1 body h)

/-- When the payload is fully present, each string-payload opcode decodes the
`len` raw bytes and consumes exactly `2 + len + pad` payload bytes. -/
theorem parseStep_string_consumes :
    ∀ opc ∈ strOpcodes, ∀ (l0 l1 : Nat) (body : List Nat),
      (l0 * 256 + l1) + (4 - (l0 * 256 + l1) % 4) % 4 ≤ body.length →
      parseStep opc (l0 :: l1 :: body) =
        .ok (strBuild opc (body.take (l0 * 256 + l1)),
          2 + (l0 * 256 + l1) + (4 - (l0 * 256 + l1) % 4) % 4) := by
  intro opc hmem l0 l1 body h
  fin_cases hmem <;>
    (simp only [parseStep, strBuild]
     exact strOp_consumes l0 l1 body h)

theorem parseGo_cons_error {b0 b1 : Nat} {rest : List Nat} {e : String}
    (h : parseStep (b0 * 256 + b1) rest = .error e) :
    parseGo (b0 :: b1 :: rest) = .error e := by
  rw [parseGo_cons]
  simp only [h]

theorem parseGo_cons_ok {b0 b1 : Nat} {rest : List Nat} {op : ScriptOp} {k : Nat}
    (h : parseStep (b0 * 256 + b1) rest = .ok (op, k)) :
    parseGo (b0 :: b1 :: rest) = (parseGo (rest.drop k)).map (fun l => op :: l) := by
  rw [parseGo_cons]
  simp only [h]
  cases parseGo (rest.drop k) <;> simp [Except.map]

theorem be32_cons (a b c d : Nat) (l : List Nat) :
    be32 (a :: b :: c :: d :: l) = ((a * 256 + b) * 256 + c) * 256 + d := rfl

theorem spritesOp_payload_truncated (l0 l1 c0 c1 c2 c3 : Nat) (body : List Nat)
    (h : body.length < l0 * 256 + l1 + (4 - (l0 * 256 + l1) % 4) % 4) :
    spritesOp (l0 :: l1 :: c0 :: c1 :: c2 :: c3 :: body) =
      .error "draw_sprites payload truncated" := by
  unfold spritesOp
  rw [if_neg (by simp only [List.length_cons]; omega)]
  rw [show (l0 :: l1 :: c0 :: c1 :: c2 :: c3 :: body).drop 6 = body from rfl, be16_cons]
  rw [if_pos h]

theorem spritesOp_cmds_truncated (l0 l1 c0 c1 c2 c3 : Nat) (body : List Nat)
    (hpl : l0 * 256 + l1 + (4 - (l0 * 256 + l1) % 4) % 4 ≤ body.length)
    (h : (body.drop (l0 * 256 + l1 + (4 - (l0 * 256 + l1) % 4) % 4)).length <
      (((c0 * 256 + c1) * 256 + c2) * 256 + c3) * 36) :
    spritesOp (l0 :: l1 :: c0 :: c1 :: c2 :: c3 :: body) =
      .error "draw_sprites command data truncated" := by
  unfold spritesOp
  rw [if_neg (by simp only [List.length_cons]; omega)]
  rw [show (l0 :: l1 :: c0 :: c1 :: c2 :: c3 :: body).drop 6 = body from rfl, be16_cons]
  rw [if_neg (by omega)]
  rw [show (l0 :: l1 :: c0 :: c1 :: c2 :: c3 :: body).drop 2 =
    c0 :: c1 :: c2 :: c3 :: body from rfl, be32_cons]
  have hdrop : (l0 :: l1 :: c0 :: c1 :: c2 :: c3 :: body).drop
      (6 + (l0 * 256 + l1) + (4 - (l0 * 256 + l1) % 4) % 4) =
      body.drop (l0 * 256 + l1 + (4 - (l0 * 256 + l1) % 4) % 4) := by
    rw [show 6 + (l0 * 256 + l1) + (4 - (l0 * 256 + l1) % 4) % 4 =
      (l0 * 256 + l1 + (4 - (l0 * 256 + l1) % 4) % 4) + 1 + 1 + 1 + 1 + 1 + 1 from by omega]
    simp [List.drop_succ_cons]
  rw [hdrop, if_pos h]

/-- C1: `parse_script` scans left to right and fails hard for the whole
buffer — an unrecognized 2-byte tag (at the start or after any fully scanned
well-formed prefix) yields the "unsupported opcode" error, a recognized
opcode whose declared payload is not fully present yields that opcode's
"truncated" error (both for the fixed-size header guard and for a
length-prefixed string payload), and any error occurring anywhere in the
scan is the result for the whole buffer, so no partial operation list is
ever returned. -/
theorem parse_script_whole_buffer_error_policy :
    (∀ (b0 b1 : Nat) (rest : List Nat), b0 * 256 + b1 ∉ supportedOpcodes →
      parse_script (b0 :: b1 :: rest) = .error (unsupportedMsg (b0 * 256 + b1)))
    ∧ (∀ (b0 b1 : Nat) (rest : List Nat), b0 * 256 + b1 ∈ supportedOpcodes →
      rest.length < headerLen (b0 * 256 + b1) →
      parse_script (b0 :: b1 :: rest) = .error (headerTruncMsg (b0 * 256 + b1)))
    ∧ (∀ opc ∈ strOpcodes, ∀ (l0 l1 : Nat) (body : List Nat),
      body.length < l0 * 256 + l1 + (4 - (l0 * 256 + l1) % 4) % 4 →
      parse_script (opc / 256 :: opc % 256 :: l0 :: l1 :: body) = .error (strPayloadMsg opc))
    ∧ (∀ (l0 l1 c0 c1 c2 c3 : Nat) (body : List Nat),
      body.length < l0 * 256 + l1 + (4 - (l0 * 256 + l1) % 4) % 4 →
      parse_script (0x00 :: 0x0B :: l0 :: l1 :: c0 :: c1 :: c2 :: c3 :: body) =
        .error "draw_sprites payload truncated")
    ∧ (∀ (l0 l1 c0 c1 c2 c3 : Nat) (body : List Nat),
      l0 * 256 + l1 + (4 - (l0 * 256 + l1) % 4) % 4 ≤ body.length →
      (body.drop (l0 * 256 + l1 + (4 - (l0 * 256 + l1) % 4) % 4)).length <
        (((c0 * 256 + c1) * 256 + c2) * 256 + c3) * 36 →
      parse_script (0x00 :: 0x0B :: l0 :: l1 :: c0 :: c1 :: c2 :: c3 :: body) =
        .error "draw_sprites command data truncated")
    ∧ (∀ (pre suffix : List Nat) (ops : List ScriptOp) (e : String),
      parseGo pre = .ok ops → pre.length % 2 = 0 → parseGo suffix = .error e →
      parse_script (pre ++ suffix) = .error e) := by
  refine ⟨?_, ?_, ?_, ?_, ?_, ?_⟩
  · intro b0 b1 rest h
    exact parseGo_cons_error (parseStep_unsupported rest h)
  · intro b0 b1 rest hmem hlen
    exact parseGo_cons_error (parseStep_header_truncated _ hmem rest hlen)
  · intro opc hmem l0 l1 body h
    have hopc : opc / 256 * 256 + opc % 256 = opc := by omega
    refine parseGo_cons_error ?_
    rw [hopc]
    exact parseStep_string_truncated opc hmem l0 l1 body h
  · intro l0 l1 c0 c1 c2 c3 body h
    refine parseGo_cons_error ?_
    rw [show (0:Nat) * 256 + 0x0B = 0x0B from by norm_num]
    simp only [parseStep]
    exact spritesOp_payload_truncated l0 l1 c0 c1 c2 c3 body h
  · intro l0 l1 c0 c1 c2 c3 body hpl h
    refine parseGo_cons_error ?_
    rw [show (0:Nat) * 256 + 0x0B = 0x0B from by norm_num]
    simp only [parseStep]
    exact spritesOp_cmds_truncated l0 l1 c0 c1 c2 c3 body hpl h
  · intro pre suffix ops e hok hpar herr
    unfold parse_script
    rw [parseGo_append hok hpar, herr]
    simp [Except.map]

theorem parse_script_whole_buffer_error_policy_witness :
    ((0x12 * 256 + 0x34 ∉ supportedOpcodes) ∧
      parse_script [0x12, 0x34] = .error (unsupportedMsg (0x12 * 256 + 0x34)))
    ∧ ((0:Nat) * 256 + 0x04 ∈ supportedOpcodes ∧
      parse_script [0x00, 0x04, 0x00, 0x01] = .error "draw_rect opcode truncated") :=
  ⟨⟨by decide, parse_script_whole_buffer_error_policy.1 0x12 0x34 [] (by decide)⟩,
   ⟨by decide,
    parse_script_whole_buffer_error_policy.2.1 0x00 0x04 [0x00, 0x01] (by decide) (by decide)⟩⟩

/-- C6: every length-prefixed string/identifier payload of declared length
`L` (draw_script, fill_image, fill_stream, draw_text, stroke_image,
stroke_stream, font) consumes exactly `L + ((4 - L % 4) % 4)` payload bytes
after the 2-byte length prefix — the scan continues at exactly that offset —
and reports that opcode's "payload truncated" error if fewer bytes remain. -/
theorem string_payload_consumption :
    ∀ opc ∈ strOpcodes, ∀ (l0 l1 : Nat) (body : List Nat),
      (body.length < l0 * 256 + l1 + (4 - (l0 * 256 + l1) % 4) % 4 →
        parseStep opc (l0 :: l1 :: body) = .error (strPayloadMsg opc))
      ∧ (l0 * 256 + l1 + (4 - (l0 * 256 + l1) % 4) % 4 ≤ body.length →
        parse_script (opc / 256 :: opc % 256 :: l0 :: l1 :: body) =
          (parse_script (body.drop (l0 * 256 + l1 + (4 - (l0 * 256 + l1) % 4) % 4))).map
            (fun l => strBuild opc (body.take (l0 * 256 + l1)) :: l)) := by
  intro opc hmem l0 l1 body
  constructor
  · exact parseStep_string_truncated opc hmem l0 l1 body
  · intro h
    have hopc : opc / 256 * 256 + opc % 256 = opc := by omega
    have hstep := parseStep_string_consumes opc hmem l0 l1 body h
    unfold parse_script
    have hstep' : parseStep (opc / 256 * 256 + opc % 256) (l0 :: l1 :: body) =
        .ok (strBuild opc (body.take (l0 * 256 + l1)),
          2 + (l0 * 256 + l1) + (4 - (l0 * 256 + l1) % 4) % 4) := by
      rw [hopc]; exact hstep
    have hcons := parseGo_cons_ok hstep'
    rw [hcons]
    have hdrop : (l0 :: l1 :: body).drop
        (2 + (l0 * 256 + l1) + (4 - (l0 * 256 + l1) % 4) % 4) =
        body.drop (l0 * 256 + l1 + (4 - (l0 * 256 + l1) % 4) % 4) := by
      rw [show 2 + (l0 * 256 + l1) + (4 - (l0 * 256 + l1) % 4) % 4 =
        (l0 * 256 + l1 + (4 - (l0 * 256 + l1) % 4) % 4) + 1 + 1 from by omega]
      simp [List.drop_succ_cons]
    rw [hdrop]

theorem string_payload_consumption_witness :
    ((0x0A:Nat) ∈ strOpcodes ∧
      parse_script [0x00, 0x0A, 0x00, 0x02, 104, 105, 0, 0] = .ok [.drawText [104, 105]]) := by
  refine ⟨by decide, ?_⟩
  have h := ((string_payload_consumption 0x0A (by decide) 0 2 [104, 105, 0, 0]).2 (by decide))
  simpa [parse_script, parseGo, strBuild, Except.map] using h

/-- C10: a buffer made of a fully scanned well-formed operation sequence
followed by exactly one extra byte still parses `Ok`, with exactly the
prefix's operations: the trailing lone byte fails the `rest.len() >= 2` loop
guard and is silently discarded, never reported as an error. -/
theorem trailing_byte_discarded (buf : List Nat) (ops : List ScriptOp) (b : Nat)
    (hok : parse_script buf = .ok ops) (hpar : buf.length % 2 = 0) :
    parse_script (buf ++ [b]) = .ok ops := by
  unfold parse_script at hok ⊢
  rw [parseGo_append hok hpar, parseGo_short [b] (by simp)]
  simp [Except.map]

theorem trailing_byte_discarded_witness :
    parse_script ([0x00, 0x40, 0x00, 0x00] ++ [0x07]) = .ok [.pushState] :=
  trailing_byte_discarded [0x00, 0x40, 0x00, 0x00] [.pushState] 0x07
    (by simp [parse_script, parseGo, parseStep, fixedOp]) (by decide)

theorem stageScripts_error {scripts : List (ByteStr × List Nat)}
    (h : ∃ p ∈ scripts, ∃ e, parse_script p.2 = .error e) :
    ∃ e, stageScripts scripts = .error e := by
  induction scripts with
  | nil => simp at h
  | cons q rest ih =>
    obtain ⟨id, buf⟩ := q
    cases hparse : parse_script buf with
    | error e' => exact ⟨e', by simp [stageScripts, hparse]⟩
    | ok ops =>
      obtain ⟨p, hp, e, he⟩ := h
      rcases List.mem_cons.mp hp with hq | hq
      · subst hq
        rw [hparse] at he
        exact Except.noConfusion he
      · obtain ⟨e', he'⟩ := ih ⟨p, hq, e, he⟩
        exact ⟨e', by simp [stageScripts, hparse, he']⟩

theorem stageScripts_ok_forall2 {scripts : List (ByteStr × List Nat)}
    {staged : List (ByteStr × List ScriptOp)} (h : stageScripts scripts = .ok staged) :
    List.Forall₂ (fun p q => p.1 = q.1 ∧ parse_script p.2 = .ok q.2) scripts staged := by
  induction scripts generalizing staged with
  | nil =>
    simp only [stageScripts, Except.ok.injEq] at h
    subst h
    exact List.Forall₂.nil
  | cons q rest ih =>
    obtain ⟨id, buf⟩ := q
    cases hparse : parse_script buf with
    | error e => simp [stageScripts, hparse] at h
    | ok ops =>
      cases hrest : stageScripts rest with
      | error e => simp [stageScripts, hparse, hrest] at h
      | ok staged' =>
        simp only [stageScripts, hparse, hrest, Except.ok.injEq] at h
        subst h
        exact List.Forall₂.cons ⟨rfl, hparse⟩ (ih hrest)

theorem stageScripts_ok_of_forall {scripts : List (ByteStr × List Nat)}
    (h : ∀ p ∈ scripts, ∃ ops, parse_script p.2 = .ok ops) :
    ∃ staged, stageScripts scripts = .ok staged := by
  induction scripts with
  | nil => exact ⟨[], rfl⟩
  | cons q rest ih =>
    obtain ⟨id, buf⟩ := q
    obtain ⟨ops, hops⟩ := h (id, buf) (List.mem_cons_self _ _)
    obtain ⟨staged, hstaged⟩ := ih (fun p hp => h p (List.mem_cons_of_mem _ hp))
    exact ⟨(id, ops) :: staged, by simp [stageScripts, hops, hstaged]⟩

theorem forall2_keys_eq {scripts : List (ByteStr × List Nat)}
    {staged : List (ByteStr × List ScriptOp)}
    (h : List.Forall₂ (fun p q => p.1 = q.1 ∧ parse_script p.2 = .ok q.2) scripts staged) :
    scripts.map Prod.fst = staged.map Prod.fst := by
  induction h with
  | nil => rfl
  | cons hpq _ ih => simp [hpq.1, ih]

theorem lookup_insertScript_self (m : List (ByteStr × List ScriptOp)) (k : ByteStr)
    (v : List ScriptOp) : lookupScript (insertScript m k v) k = some v := by
  induction m with
  | nil => simp [insertScript, lookupScript]
  | cons p rest ih =>
    obtain ⟨k', v'⟩ := p
    by_cases h : k' = k
    · simp [insertScript, lookupScript, h]
    · simp [insertScript, lookupScript, h, ih]

theorem lookup_insertScript_ne (m : List (ByteStr × List ScriptOp)) {k k' : ByteStr}
    (v : List ScriptOp) (h : k' ≠ k) :
    lookupScript (insertScript m k v) k' = lookupScript m k' := by
  induction m with
  | nil =>
    simp only [insertScript, lookupScript]
    rw [if_neg (Ne.symm h)]
  | cons p rest ih =>
    obtain ⟨k0, v0⟩ := p
    simp only [insertScript]
    by_cases h0 : k0 = k
    · rw [if_pos h0]
      simp only [lookupScript]
      rw [if_neg (Ne.symm h), if_neg (h0 ▸ Ne.symm h)]
    · rw [if_neg h0]
      simp only [lookupScript]
      by_cases h1 : k0 = k'
      · rw [if_pos h1, if_pos h1]
      · rw [if_neg h1, if_neg h1]
        exact ih

theorem foldl_setScript_lookup_notMem (l : List (ByteStr × List ScriptOp))
    (st : RenderState) {k : ByteStr} (h : k ∉ l.map Prod.fst) :
    lookupScript ((l.foldl (fun s p => set_script s p.1 p.2) st).scripts) k =
      lookupScript st.scripts k := by
  induction l generalizing st with
  | nil => rfl
  | cons p rest ih =>
    obtain ⟨k0, v0⟩ := p
    simp only [List.map_cons, List.mem_cons] at h
    push_neg at h
    simp only [List.foldl_cons]
    rw [ih (set_script st k0 v0) h.2]
    exact lookup_insertScript_ne _ _ h.1

theorem foldl_setScript_lookup_mem (l : List (ByteStr × List ScriptOp))
    (st : RenderState) (hnd : (l.map Prod.fst).Nodup) :
    ∀ p ∈ l, lookupScript ((l.foldl (fun s p => set_script s p.1 p.2) st).scripts) p.1 =
      some p.2 := by
  induction l generalizing st with
  | nil => intro p hp; simp at hp
  | cons q rest ih =>
    obtain ⟨k0, v0⟩ := q
    simp only [List.map_cons, List.nodup_cons] at hnd
    intro p hp
    rcases List.mem_cons.mp hp with hq | hq
    · subst hq
      simp only [List.foldl_cons]
      rw [foldl_setScript_lookup_notMem rest _ hnd.1]
      exact lookup_insertScript_self _ _ _
    · simp only [List.foldl_cons]
      exact ih (set_script st k0 v0) hnd.2 p hq

theorem lookup_insertScript_isSome (m : List (ByteStr × List ScriptOp)) {k : ByteStr}
    (k' : ByteStr) (w : List ScriptOp) (h : ∃ v, lookupScript m k = some v) :
    ∃ v, lookupScript (insertScript m k' w) k = some v := by
  by_cases hk : k = k'
  · subst hk
    exact ⟨w, lookup_insertScript_self m k w⟩
  · rw [lookup_insertScript_ne m w hk]
    exact h

theorem foldl_setScript_preserves_present (l : List (ByteStr × List ScriptOp))
    (st : RenderState) {k : ByteStr} (h : ∃ v, lookupScript st.scripts k = some v) :
    ∃ v, lookupScript ((l.foldl (fun s p => set_script s p.1 p.2) st).scripts) k = some v := by
  induction l generalizing st with
  | nil => exact h
  | cons q rest ih =>
    obtain ⟨k0, v0⟩ := q
    simp only [List.foldl_cons]
    exact ih (set_script st k0 v0) (lookup_insertScript_isSome _ _ _ h)

theorem foldl_setScript_mem_present (l : List (ByteStr × List ScriptOp)) (st : RenderState) :
    ∀ p ∈ l, ∃ ops, lookupScript ((l.foldl (fun s p => set_script s p.1 p.2) st).scripts) p.1 =
      some ops := by
  induction l generalizing st with
  | nil => intro p hp; simp at hp
  | cons q rest ih =>
    obtain ⟨k0, v0⟩ := q
    intro p hp
    rcases List.mem_cons.mp hp with hq | hq
    · subst hq
      simp only [List.foldl_cons]
      exact foldl_setScript_preserves_present rest _ ⟨v0, lookup_insertScript_self _ _ _⟩
    · simp only [List.foldl_cons]
      exact ih (set_script st k0 v0) p hq

/-- C2: `submit_scripts` is all-or-nothing.  If any buffer in the batch fails
to decode, the whole call reports that error and the render state (script
map and root identifier included) is left exactly as it was, with no script
from the batch installed; if every buffer decodes, the call succeeds and
every submitted identifier is installed (bound, when the batch's identifiers
are distinct, to exactly the operations decoded from its buffer). -/
theorem submit_scripts_all_or_nothing :
    (∀ (st : RenderState) (scripts : List (ByteStr × List Nat)),
      (∃ p ∈ scripts, ∃ e, parse_script p.2 = .error e) →
      submitScriptsApplied st scripts = st)
    ∧ (∀ (st : RenderState) (scripts : List (ByteStr × List Nat)),
      (∀ p ∈ scripts, ∃ ops, parse_script p.2 = .ok ops) →
      ∃ st', submit_scripts st scripts = .ok st' ∧
        (∀ p ∈ scripts, ∃ ops, lookupScript st'.scripts p.1 = some ops) ∧
        ((scripts.map Prod.fst).Nodup →
          ∀ p ∈ scripts, ∃ ops, parse_script p.2 = .ok ops ∧
            lookupScript st'.scripts p.1 = some ops)) := by
  constructor
  · intro st scripts h
    obtain ⟨e, he⟩ := stageScripts_error h
    unfold submitScriptsApplied submit_scripts
    rw [he]
  · intro st scripts h
    obtain ⟨staged, hstaged⟩ := stageScripts_ok_of_forall h
    have hf2 := stageScripts_ok_forall2 hstaged
    have hkeys := forall2_keys_eq hf2
    refine ⟨staged.foldl (fun s p => set_script s p.1 p.2) st, ?_, ?_, ?_⟩
    · unfold submit_scripts
      rw [hstaged]
    · intro p hp
      obtain ⟨i, hpi⟩ := List.mem_iff_get.mp hp
      obtain ⟨iv, hiv⟩ := i
      obtain ⟨hlen, hget⟩ := List.forall₂_iff_get.mp hf2
      have hilt : iv < staged.length := by omega
      have hq := hget iv hiv hilt
      have hmem : staged.get ⟨iv, hilt⟩ ∈ staged := List.get_mem _ _ _
      obtain ⟨ops, hops⟩ := foldl_setScript_mem_present staged st _ hmem
      subst hpi
      exact ⟨ops, by rw [hq.1]; exact hops⟩
    · intro hnd p hp
      obtain ⟨i, hpi⟩ := List.mem_iff_get.mp hp
      obtain ⟨iv, hiv⟩ := i
      obtain ⟨hlen, hget⟩ := List.forall₂_iff_get.mp hf2
      have hilt : iv < staged.length := by omega
      have hq := hget iv hiv hilt
      have hmem : staged.get ⟨iv, hilt⟩ ∈ staged := List.get_mem _ _ _
      have hlook := foldl_setScript_lookup_mem staged st (hkeys ▸ hnd) _ hmem
      subst hpi
      exact ⟨(staged.get ⟨iv, hilt⟩).2, by rw [hq.1]; exact ⟨hq.2, hlook⟩⟩

theorem submit_scripts_all_or_nothing_witness :
    ((∃ p ∈ [(([65] : ByteStr), ([0x12, 0x34] : List Nat))], ∃ e,
        parse_script p.2 = Except.error e) ∧
      submitScriptsApplied RenderState.default [([65], [0x12, 0x34])] = RenderState.default)
    ∧ ((∀ p ∈ [(([65] : ByteStr), ([0x00, 0x40, 0x00, 0x00] : List Nat))], ∃ ops,
        parse_script p.2 = Except.ok ops) ∧
      ∃ st', submit_scripts RenderState.default [([65], [0x00, 0x40, 0x00, 0x00])] =
          .ok st' ∧
        (∀ p ∈ [(([65] : ByteStr), ([0x00, 0x40, 0x00, 0x00] : List Nat))], ∃ ops,
          lookupScript st'.scripts p.1 = some ops) ∧
        (([([65], [0x00, 0x40, 0x00, 0x00])].map
            (Prod.fst (α := ByteStr) (β := List Nat))).Nodup →
          ∀ p ∈ [(([65] : ByteStr), ([0x00, 0x40, 0x00, 0x00] : List Nat))], ∃ ops,
            parse_script p.2 = .ok ops ∧ lookupScript st'.scripts p.1 = some ops)) := by
  constructor
  · have hfail : ∃ p ∈ [(([65] : ByteStr), ([0x12, 0x34] : List Nat))], ∃ e,
        parse_script p.2 = Except.error e := by
      refine ⟨([65], [0x12, 0x34]), by simp, ?_⟩
      exact ⟨unsupportedMsg 0x1234,
        by simp [parse_script, parseGo, parseStep, unsupportedMsg, hexPad2, hexDigits, hexDigit]⟩
    exact ⟨hfail, submit_scripts_all_or_nothing.1 RenderState.default _ hfail⟩
  · have hok : ∀ p ∈ [(([65] : ByteStr), ([0x00, 0x40, 0x00, 0x00] : List Nat))], ∃ ops,
        parse_script p.2 = Except.ok ops := by
      intro p hp
      simp only [List.mem_singleton] at hp
      subst hp
      exact ⟨[.pushState], by simp [parse_script, parseGo, parseStep, fixedOp]⟩
    exact ⟨hok, submit_scripts_all_or_nothing.2 RenderState.default _ hok⟩

/-- An environment with empty resource caches. -/
def resEmpty : Resources := ⟨[], [], [], false⟩

theorem apply_fill_paint_style (ds : DrawState) :
    (apply_fill_paint ds).style = PaintStyle.fill := by
  unfold apply_fill_paint
  cases ds.fill_shader <;> rfl

theorem apply_stroke_paint_style (ds : DrawState) :
    (apply_stroke_paint ds).style = PaintStyle.stroke := by
  unfold apply_stroke_paint
  cases ds.stroke_shader <;> rfl

/-- The paint argument of a recorded canvas draw call, when it has one. -/
def paintOf : CanvasCall → Option Paint
  | .drawPath _ p => some p
  | .drawLine _ _ _ _ p => some p
  | .drawCircle _ p => some p
  | .drawOval _ _ p => some p
  | .drawArc _ _ p => some p
  | .drawRect _ _ p => some p
  | .drawRRect _ _ _ p => some p
  | .drawRRectV _ _ _ _ _ _ p => some p
  | .drawStr _ p => some p
  | _ => none

/-- A canvas call that draws with a fill-styled paint. -/
def isFillDraw (c : CanvasCall) : Bool :=
  match paintOf c with
  | some p => decide (p.style = PaintStyle.fill)
  | none => false

/-- A canvas call that draws with a stroke-styled paint. -/
def isStrokeDraw (c : CanvasCall) : Bool :=
  match paintOf c with
  | some p => decide (p.style = PaintStyle.stroke)
  | none => false

/-- Number of fill draw calls in a canvas trace. -/
def countFill (l : List CanvasCall) : Nat := (l.filter isFillDraw).length

/-- Number of stroke draw calls in a canvas trace. -/
def countStroke (l : List CanvasCall) : Nat := (l.filter isStrokeDraw).length

theorem count_if_pair (c1 c2 : Prop) [Decidable c1] [Decidable c2] (f s : CanvasCall)
    (hf1 : isFillDraw f = true) (hf2 : isStrokeDraw f = false)
    (hs1 : isFillDraw s = false) (hs2 : isStrokeDraw s = true) :
    countFill ((if c1 then [f] else []) ++ (if c2 then [s] else [])) =
      (if c1 then 1 else 0) ∧
    countStroke ((if c1 then [f] else []) ++ (if c2 then [s] else [])) =
      (if c2 then 1 else 0) := by
  by_cases h1 : c1 <;> by_cases h2 : c2 <;>
    simp [countFill, countStroke, h1, h2, hf1, hf2, hs1, hs2]

theorem isFillDraw_fill_paint (ds : DrawState) {mk : Paint → CanvasCall}
    (hmk : ∀ p, paintOf (mk p) = some p) :
    isFillDraw (mk (apply_fill_paint ds)) = true ∧
    isStrokeDraw (mk (apply_fill_paint ds)) = false := by
  constructor <;> simp [isFillDraw, isStrokeDraw, hmk, apply_fill_paint_style]

theorem isStrokeDraw_stroke_paint (ds : DrawState) {mk : Paint → CanvasCall}
    (hmk : ∀ p, paintOf (mk p) = some p) :
    isFillDraw (mk (apply_stroke_paint ds)) = false ∧
    isStrokeDraw (mk (apply_stroke_paint ds)) = true := by
  constructor <;> simp [isFillDraw, isStrokeDraw, hmk, apply_stroke_paint_style]

/-- C5: `FillPath` reads the in-progress path without consuming it — the
graphics state (its path included) is completely unchanged — while
`StrokePath` consumes the path (`Option::take`), leaving the state with no
path and changing no other field. -/
theorem fill_path_keeps_stroke_path_consumes :
    (∀ (res : Resources) (ds : DrawState) (c : List CanvasCall),
      (execOp res (ds, c) .fillPath).1 = ds)
    ∧ (∀ (res : Resources) (ds : DrawState) (c : List CanvasCall),
      (execOp res (ds, c) .strokePath).1 = { ds with path := none }) := by
  constructor
  · intro res ds c
    cases hp : ds.path <;> simp [execOp, hp]
  · intro res ds c
    cases hp : ds.path <;> simp [execOp, hp]
    cases ds
    simp_all

/-- Counterexample to C7 as stated: a `DrawLine` with the fill-only flag
(bit 0 set) issues zero canvas calls — not exactly one fill call — because
the `DrawLine` arm only checks the stroke bit. -/
theorem draw_line_fill_only_no_fill_call :
    ((1:Nat) &&& 0x01 = 0x01) ∧
    (execOp resEmpty (DrawState.default, []) (.drawLine 0 0 0 0 1)).2 = [] ∧
    countFill ((execOp resEmpty (DrawState.default, []) (.drawLine 0 0 0 0 1)).2) = 0 := by
  refine ⟨by decide, by decide, by decide⟩

/-- C7 (amended): for every immediate-draw operation except line (triangle,
quad, rect, rounded-rect with one or four radii, circle, ellipse, arc,
sector) with flag bitmask `f`, execution issues exactly one fill canvas call
iff bit 0 of `f` is set and exactly one stroke canvas call iff bit 1 of `f`
is set; a line issues exactly one stroke call iff bit 1 is set and never a
fill call. -/
theorem immediate_draw_flag_semantics :
    (∀ (res : Resources) (ds : DrawState) (x0 y0 x1 y1 x2 y2 flag : Nat),
      countFill ((execOp res (ds, []) (.drawTriangle x0 y0 x1 y1 x2 y2 flag)).2) =
        (if flag &&& 0x01 = 0x01 then 1 else 0) ∧
      countStroke ((execOp res (ds, []) (.drawTriangle x0 y0 x1 y1 x2 y2 flag)).2) =
        (if flag &&& 0x02 = 0x02 then 1 else 0))
    ∧ (∀ (res : Resources) (ds : DrawState) (x0 y0 x1 y1 x2 y2 x3 y3 flag : Nat),
      countFill ((execOp res (ds, []) (.drawQuad x0 y0 x1 y1 x2 y2 x3 y3 flag)).2) =
        (if flag &&& 0x01 = 0x01 then 1 else 0) ∧
      countStroke ((execOp res (ds, []) (.drawQuad x0 y0 x1 y1 x2 y2 x3 y3 flag)).2) =
        (if flag &&& 0x02 = 0x02 then 1 else 0))
    ∧ (∀ (res : Resources) (ds : DrawState) (w h flag : Nat),
      countFill ((execOp res (ds, []) (.drawRect w h flag)).2) =
        (if flag &&& 0x01 = 0x01 then 1 else 0) ∧
      countStroke ((execOp res (ds, []) (.drawRect w h flag)).2) =
        (if flag &&& 0x02 = 0x02 then 1 else 0))
    ∧ (∀ (res : Resources) (ds : DrawState) (w h r flag : Nat),
      countFill ((execOp res (ds, []) (.drawRRect w h r flag)).2) =
        (if flag &&& 0x01 = 0x01 then 1 else 0) ∧
      countStroke ((execOp res (ds, []) (.drawRRect w h r flag)).2) =
        (if flag &&& 0x02 = 0x02 then 1 else 0))
    ∧ (∀ (res : Resources) (ds : DrawState) (w h ul ur lr ll flag : Nat),
      countFill ((execOp res (ds, []) (.drawRRectV w h ul ur lr ll flag)).2) =
        (if flag &&& 0x01 = 0x01 then 1 else 0) ∧
      countStroke ((execOp res (ds, []) (.drawRRectV w h ul ur lr ll flag)).2) =
        (if flag &&& 0x02 = 0x02 then 1 else 0))
    ∧ (∀ (res : Resources) (ds : DrawState) (r flag : Nat),
      countFill ((execOp res (ds, []) (.drawCircle r flag)).2) =
        (if flag &&& 0x01 = 0x01 then 1 else 0) ∧
      countStroke ((execOp res (ds, []) (.drawCircle r flag)).2) =
        (if flag &&& 0x02 = 0x02 then 1 else 0))
    ∧ (∀ (res : Resources) (ds : DrawState) (r0 r1 flag : Nat),
      countFill ((execOp res (ds, []) (.drawEllipse r0 r1 flag)).2) =
        (if flag &&& 0x01 = 0x01 then 1 else 0) ∧
      countStroke ((execOp res (ds, []) (.drawEllipse r0 r1 flag)).2) =
        (if flag &&& 0x02 = 0x02 then 1 else 0))
    ∧ (∀ (res : Resources) (ds : DrawState) (r rad flag : Nat),
      countFill ((execOp res (ds, []) (.drawArc r rad flag)).2) =
        (if flag &&& 0x01 = 0x01 then 1 else 0) ∧
      countStroke ((execOp res (ds, []) (.drawArc r rad flag)).2) =
        (if flag &&& 0x02 = 0x02 then 1 else 0))
    ∧ (∀ (res : Resources) (ds : DrawState) (r rad flag : Nat),
      countFill ((execOp res (ds, []) (.drawSector r rad flag)).2) =
        (if flag &&& 0x01 = 0x01 then 1 else 0) ∧
      countStroke ((execOp res (ds, []) (.drawSector r rad flag)).2) =
        (if flag &&& 0x02 = 0x02 then 1 else 0))
    ∧ (∀ (res : Resources) (ds : DrawState) (x0 y0 x1 y1 flag : Nat),
      countFill ((execOp res (ds, []) (.drawLine x0 y0 x1 y1 flag)).2) = 0 ∧
      countStroke ((execOp res (ds, []) (.drawLine x0 y0 x1 y1 flag)).2) =
        (if flag &&& 0x02 = 0x02 then 1 else 0)) := by
  refine ⟨?_, ?_, ?_, ?_, ?_, ?_, ?_, ?_, ?_, ?_⟩ <;> intros <;>
    first
      | (simp only [execOp, List.nil_append]
         exact count_if_pair _ _ _ _
           (by simp [isFillDraw, paintOf, apply_fill_paint_style])
           (by simp [isStrokeDraw, paintOf, apply_fill_paint_style])
           (by simp [isFillDraw, paintOf, apply_stroke_paint_style])
           (by simp [isStrokeDraw, paintOf, apply_stroke_paint_style]))
      | (rename_i flag
         by_cases h2 : flag &&& 0x02 = 0x02 <;>
           simp [execOp, h2, countFill, countStroke, isFillDraw, isStrokeDraw, paintOf,
             apply_stroke_paint_style])

/-- C8: the fill paint is effectively a flat color or a shader, mutually
exclusive — `FillColor` sets the flat color and clears the shader,
`FillLinear` installs a linear-gradient shader, the paint actually applied
to the canvas is determined solely by whether a shader is present (a shader
paints white-through-shader, no shader paints the flat color), and after a
`FillLinear` followed by a flat `FillColor` the shader is cleared so every
subsequent fill paints only the flat color. -/
theorem fill_paint_mutual_exclusion :
    (∀ (res : Resources) (ds : DrawState) (c : List CanvasCall) (color : Color),
      (execOp res (ds, c) (.fillColor color)).1 =
        { ds with fill_color := color, fill_shader := none })
    ∧ (∀ (res : Resources) (ds : DrawState) (c : List CanvasCall) (sx sy ex ey : Nat)
        (c0 c1 : Color),
      (execOp res (ds, c) (.fillLinear sx sy ex ey c0 c1)).1 =
        { ds with fill_color := c0, fill_shader := some (.linear sx sy ex ey c0 c1) })
    ∧ (∀ ds : DrawState, ds.fill_shader = none →
      apply_fill_paint ds =
        { Paint.default with
          antiAlias := true
          style := PaintStyle.fill
          color := ds.fill_color })
    ∧ (∀ (ds : DrawState) (sh : Shader), ds.fill_shader = some sh →
      apply_fill_paint ds =
        { Paint.default with
          antiAlias := true
          style := PaintStyle.fill
          shader := some sh
          color := Color.white })
    ∧ (∀ (res : Resources) (ds : DrawState) (c c' : List CanvasCall) (sx sy ex ey : Nat)
        (c0 c1 : Color) (color : Color),
      ((execOp res ((execOp res (ds, c) (.fillLinear sx sy ex ey c0 c1)).1, c')
          (.fillColor color)).1).fill_shader = none ∧
      ((execOp res ((execOp res (ds, c) (.fillLinear sx sy ex ey c0 c1)).1, c')
          (.fillColor color)).1).fill_color = color ∧
      apply_fill_paint ((execOp res ((execOp res (ds, c) (.fillLinear sx sy ex ey c0 c1)).1, c')
          (.fillColor color)).1) =
        { Paint.default with
          antiAlias := true
          style := PaintStyle.fill
          color := color }) := by
  refine ⟨?_, ?_, ?_, ?_, ?_⟩
  · intro res ds c color
    simp [execOp]
  · intro res ds c sx sy ex ey c0 c1
    simp [execOp]
  · intro ds h
    simp [apply_fill_paint, h]
  · intro ds sh h
    simp [apply_fill_paint, h]
  · intro res ds c c' sx sy ex ey c0 c1 color
    refine ⟨by simp [execOp], by simp [execOp], ?_⟩
    simp [execOp, apply_fill_paint]

theorem fill_paint_mutual_exclusion_witness :
    (DrawState.default.fill_shader = none ∧
      apply_fill_paint DrawState.default =
        { Paint.default with
          antiAlias := true
          style := PaintStyle.fill
          color := DrawState.default.fill_color })
    ∧ ((DrawState.default.push).fill_shader = none ∨
      ∃ sh, (DrawState.default.push).fill_shader = some sh) :=
  ⟨⟨rfl, fill_paint_mutual_exclusion.2.2.1 DrawState.default rfl⟩, .inl rfl⟩

/-- C9: a fill/stroke image or stream paint op whose resource identifier is
absent from the corresponding cache clears the shader and sets the flat
color to fully transparent instead of failing (no canvas call, no error),
and a `DrawScript` whose identifier is absent from the script store draws
nothing and changes nothing. -/
theorem missing_resource_silent_degradation :
    (∀ (res : Resources) (ds : DrawState) (c : List CanvasCall) (id : ByteStr),
      id ∉ res.images →
      execOp res (ds, c) (.fillImage id) =
        ({ ds with fill_shader := none, fill_color := Color.transparent }, c))
    ∧ (∀ (res : Resources) (ds : DrawState) (c : List CanvasCall) (id : ByteStr),
      id ∉ res.streams →
      execOp res (ds, c) (.fillStream id) =
        ({ ds with fill_shader := none, fill_color := Color.transparent }, c))
    ∧ (∀ (res : Resources) (ds : DrawState) (c : List CanvasCall) (id : ByteStr),
      id ∉ res.images →
      execOp res (ds, c) (.strokeImage id) =
        ({ ds with stroke_shader := none, stroke_color := Color.transparent }, c))
    ∧ (∀ (res : Resources) (ds : DrawState) (c : List CanvasCall) (id : ByteStr),
      id ∉ res.streams →
      execOp res (ds, c) (.strokeStream id) =
        ({ ds with stroke_shader := none, stroke_color := Color.transparent }, c))
    ∧ (∀ (res : Resources) (rs : RenderState) (sid : ByteStr)
        (acc : DrawState × List CanvasCall) (stack : List ByteStr),
      lookupScript rs.scripts sid = none →
      draw_script res rs sid acc stack = acc) := by
  refine ⟨?_, ?_, ?_, ?_, ?_⟩
  · intro res ds c id h
    simp [execOp, set_fill_image_shader, load_static_shader, h]
  · intro res ds c id h
    simp [execOp, set_fill_image_shader, load_stream_shader, h]
  · intro res ds c id h
    simp [execOp, set_stroke_image_shader, load_static_shader, h]
  · intro res ds c id h
    simp [execOp, set_stroke_image_shader, load_stream_shader, h]
  · intro res rs sid acc stack h
    rw [draw_script]
    by_cases hm : sid ∈ stack
    · simp [hm]
    · rw [dif_neg hm]
      split
      · rfl
      · rename_i ops heq
        rw [h] at heq
        exact Option.noConfusion heq

theorem missing_resource_silent_degradation_witness :
    (([1] : ByteStr) ∉ resEmpty.images ∧
      execOp resEmpty (DrawState.default, []) (.fillImage [1]) =
        ({ DrawState.default with
            fill_shader := none
            fill_color := Color.transparent }, []))
    ∧ (lookupScript RenderState.default.scripts [2] = none ∧
      draw_script resEmpty RenderState.default [2] (DrawState.default, []) [] =
        (DrawState.default, [])) :=
  ⟨⟨by decide,
    missing_resource_silent_degradation.1 resEmpty DrawState.default [] [1] (by decide)⟩,
   ⟨rfl,
    missing_resource_silent_degradation.2.2.2.2 resEmpty RenderState.default [2]
      (DrawState.default, []) [] rfl⟩⟩

theorem execOps_nil (res : Resources) (rs : RenderState) (acc : DrawState × List CanvasCall)
    (stack : List ByteStr) : execOps res rs [] acc stack = acc := by
  rw [execOps]

theorem execOps_cons (res : Resources) (rs : RenderState) (op : ScriptOp)
    (ops : List ScriptOp) (acc : DrawState × List CanvasCall) (stack : List ByteStr) :
    execOps res rs (op :: ops) acc stack =
      execOps res rs ops
        (match op with
          | .drawScript id => draw_script res rs id acc stack
          | _ => execOp res acc op) stack := by
  cases op <;> rw [execOps] <;> simp

theorem execOps_append (res : Resources) (rs : RenderState) (l1 l2 : List ScriptOp)
    (acc : DrawState × List CanvasCall) (stack : List ByteStr) :
    execOps res rs (l1 ++ l2) acc stack =
      execOps res rs l2 (execOps res rs l1 acc stack) stack := by
  induction l1 generalizing acc with
  | nil => rw [execOps_nil]; rfl
  | cons op rest ih =>
    rw [List.cons_append, execOps_cons, execOps_cons, ih]

theorem replicate_append_cons {α : Type} (n : Nat) (x : α) (s : List α) :
    List.replicate n x ++ x :: s = List.replicate (n + 1) x ++ s := by
  induction n with
  | zero => simp
  | succ n ih => simp only [List.replicate_succ, List.cons_append, ih]

theorem execOps_push_default (res : Resources) (rs : RenderState) (stack : List ByteStr)
    (n : Nat) (c : List CanvasCall) (s : List DrawStateSnapshot) :
    execOps res rs (List.replicate n .pushState)
      ({ DrawState.default with stack := s }, c) stack =
    ({ DrawState.default with stack := List.replicate n DrawStateSnapshot.default ++ s },
      c ++ List.replicate n .save) := by
  induction n generalizing s c with
  | zero => rw [List.replicate, execOps_nil]; simp
  | succ n ih =>
    rw [List.replicate_succ, execOps_cons]
    have hstep : (match (ScriptOp.pushState : ScriptOp) with
        | .drawScript id => draw_script res rs id ({ DrawState.default with stack := s }, c) stack
        | _ => execOp res ({ DrawState.default with stack := s }, c) .pushState) =
        ({ DrawState.default with stack := DrawStateSnapshot.default :: s }, c ++ [.save]) := by
      simp [execOp, DrawState.push, DrawState.snap, DrawState.default, DrawStateSnapshot.default]
    rw [hstep, ih]
    rw [replicate_append_cons]
    simp [List.replicate_succ, List.append_assoc]

theorem execOps_pop_default (res : Resources) (rs : RenderState) (stack : List ByteStr)
    (m : Nat) :
    ∀ (n : Nat) (c : List CanvasCall),
    execOps res rs (List.replicate m .popState)
      ({ DrawState.default with stack := List.replicate n DrawStateSnapshot.default }, c)
      stack =
    ({ DrawState.default with stack := List.replicate (n - m) DrawStateSnapshot.default },
      c ++ List.replicate (min m n) .restore) := by
  induction m with
  | zero => intro n c; rw [List.replicate, execOps_nil]; simp
  | succ m ih =>
    intro n c
    rw [List.replicate_succ, execOps_cons]
    cases n with
    | zero =>
      have hstep : (match (ScriptOp.popState : ScriptOp) with
          | .drawScript id => draw_script res rs id
              ({ DrawState.default with
                  stack := List.replicate 0 DrawStateSnapshot.default }, c) stack
          | _ => execOp res
              ({ DrawState.default with
                  stack := List.replicate 0 DrawStateSnapshot.default }, c) .popState) =
          ({ DrawState.default with stack := List.replicate 0 DrawStateSnapshot.default }, c) := by
        simp [execOp, DrawState.can_pop]
      rw [hstep, ih 0 c]
      simp
    | succ k =>
      have hstep : (match (ScriptOp.popState : ScriptOp) with
          | .drawScript id => draw_script res rs id
              ({ DrawState.default with
                  stack := List.replicate (k + 1) DrawStateSnapshot.default }, c) stack
          | _ => execOp res
              ({ DrawState.default with
                  stack := List.replicate (k + 1) DrawStateSnapshot.default }, c) .popState) =
          ({ DrawState.default with stack := List.replicate k DrawStateSnapshot.default },
            c ++ [.restore]) := by
        simp [execOp, DrawState.can_pop, DrawState.pop, DrawState.applySnapshot,
          List.replicate_succ, DrawState.default, DrawStateSnapshot.default]
      rw [hstep, ih k (c ++ [CanvasCall.restore])]
      have hmin : min (m + 1) (k + 1) = min m k + 1 := by omega
      have hsub : k + 1 - (m + 1) = k - m := by omega
      rw [hmin, hsub]
      simp [List.replicate_succ, List.append_assoc]

/-- C3: a `PopState` (restore) when the snapshot stack is empty is a no-op
on both the graphics state and the canvas (the defined underflow policy),
and executing N `PushState` operations followed by M > N `PopState`
operations from the default graphics state always terminates with the
graphics state back at the default Graphics State. -/
theorem restore_underflow_policy :
    (∀ (res : Resources) (ds : DrawState) (c : List CanvasCall), ds.stack = [] →
      execOp res (ds, c) .popState = (ds, c))
    ∧ (∀ (res : Resources) (rs : RenderState) (stack : List ByteStr) (N M : Nat)
        (c : List CanvasCall), N < M →
      execOps res rs (List.replicate N .pushState ++ List.replicate M .popState)
        (DrawState.default, c) stack =
      (DrawState.default, c ++ (List.replicate N .save ++ List.replicate N .restore))) := by
  constructor
  · intro res ds c h
    simp [execOp, DrawState.can_pop, h]
  · intro res rs stack N M c hNM
    rw [execOps_append]
    have hdflt : (DrawState.default, c) =
        (({ DrawState.default with stack := [] } : DrawState), c) := rfl
    rw [hdflt, execOps_push_default]
    rw [show (List.replicate N DrawStateSnapshot.default ++ [] :
        List DrawStateSnapshot) = List.replicate N DrawStateSnapshot.default by simp]
    rw [execOps_pop_default]
    have h1 : N - M = 0 := by omega
    have h2 : min M N = N := by omega
    rw [h1, h2]
    simp [List.append_assoc]
    rfl

theorem restore_underflow_policy_witness :
    (DrawState.default.stack = [] ∧
      execOp resEmpty (DrawState.default, []) .popState = (DrawState.default, []))
    ∧ ((1:Nat) < 2 ∧
      execOps resEmpty RenderState.default
        (List.replicate 1 .pushState ++ List.replicate 2 .popState)
        (DrawState.default, []) [] =
      (DrawState.default, [] ++ (List.replicate 1 .save ++ List.replicate 1 .restore))) :=
  ⟨⟨rfl, restore_underflow_policy.1 resEmpty DrawState.default [] rfl⟩,
   ⟨by decide, restore_underflow_policy.2 resEmpty RenderState.default [] 1 2 [] (by decide)⟩⟩

/-- A two-script store in which script A (id `[65]`) and script B (id
`[66]`) each draw one shape and then reference each other. -/
def rsAB : RenderState :=
  { clear_color := Color.white
    scripts := [([65], [.drawRect 10 20 1, .drawScript [66]]),
                ([66], [.drawCircle 5 1, .drawScript [65]])]
    root_id := some [65] }

/-- C4: `draw_script` terminates on every script store and starting
identifier (it is a total well-founded function, its recursion measured by
the script-store keys not yet on the currently-executing stack), a
`DrawScript` whose identifier is already on the currently-executing stack is
skipped without executing any of its operations, and two scripts that
reference each other execute exactly the non-cyclic portion of each exactly
once. -/
theorem draw_script_cycle_guard :
    (∀ (res : Resources) (rs : RenderState) (sid : ByteStr)
        (acc : DrawState × List CanvasCall) (stack : List ByteStr),
      sid ∈ stack → draw_script res rs sid acc stack = acc)
    ∧ draw_script resEmpty rsAB [65] (DrawState.default, []) [] =
        (DrawState.default,
          [.drawRect 10 20 (apply_fill_paint DrawState.default),
           .drawCircle 5 (apply_fill_paint DrawState.default)]) := by
  constructor
  · intro res rs sid acc stack h
    rw [draw_script]
    simp [h]
  · simp [draw_script, execOps, execOp, lookupScript, rsAB, resEmpty]

theorem draw_script_cycle_guard_witness :
    (([65] : ByteStr) ∈ [([65] : ByteStr)] ∧
      draw_script resEmpty rsAB [65] (DrawState.default, []) [[65]] =
        (DrawState.default, [])) :=
  ⟨by decide,
   draw_script_cycle_guard.1 resEmpty rsAB [65] (DrawState.default, []) [[65]] (by decide)⟩
